import Mathlib

/-!
# netsim: the network simulation element of gst-plugins-bad

A shallow embedding of `gst/netsim/gstnetsim.c`.  The element state
(`GstNetSimPrivate`) is passed explicitly; what the element does to the outside
(synchronous pushes on the source pad, timeout sources attached to the main
loop, clock reads, debug messages) is recorded in `GstNetSim` next to it.

Machine integers are `Int`/`Nat` with explicit wrap-around: `gint` is reduced
with `wrap32`, `gsize`/`guint64` with `% 2 ^ 64`.  `gfloat`/`gdouble` values
that are only compared are exact rationals.

The scheduler (`gst_net_sim_src_activatemode`, `gst_net_sim_loop`) is embedded
sequentially: the task runs while the caller waits on the condition, and a call
that aborts on a `g_assert` or waits for ever returns a `SchedulerFault`.
-/

namespace NetSim

/-! ## Machine integers and GLib/GStreamer constants -/

/-- Largest `gint`. -/
def G_MAXINT : Int := 2147483647

/-- Largest `guint64`. -/
def G_MAXUINT64 : Nat := 2 ^ 64 - 1

/-- The invalid clock time, `(GstClockTime) -1`. -/
def GST_CLOCK_TIME_NONE : Nat := 2 ^ 64 - 1

/-- One second in nanoseconds. -/
def GST_SECOND : Nat := 1000000000

/-- The machine epsilon of `double`, `2 ^ -52`. -/
def DBL_EPSILON : ℚ := 1 / 4503599627370496

/-- The value of a 32-bit two's complement `gint` holding the low 32 bits of `x`. -/
def wrap32 (x : Int) : Int := (x + 2 ^ 31) % 2 ^ 32 - 2 ^ 31

/-- Conversion of a signed integer to `gsize`/`guint64` (64 bits, modular). -/
def toU64 (x : Int) : Nat := (x % 2 ^ 64).toNat

/-- Test `GST_CLOCK_TIME_IS_VALID`. -/
def GST_CLOCK_TIME_IS_VALID (t : Nat) : Bool := t != GST_CLOCK_TIME_NONE

/-- GStreamer core `gst_util_uint64_scale_int (val, num, denom)`: `val * num / denom`
rounded down, computed without intermediate overflow; `G_MAXUINT64` when the
result does not fit or when the argument checks (`denom > 0`, `num >= 0`) fail. -/
def gst_util_uint64_scale_int (val : Nat) (num denom : Int) : Nat :=
  if denom ≤ 0 then G_MAXUINT64
  else if num < 0 then G_MAXUINT64
  else
    let r := val * num.toNat / denom.toNat
    if G_MAXUINT64 < r then G_MAXUINT64 else r

/-! ## The random source -/

/-- A `double` in `[0, 1)`, the range of `g_rand_double`. -/
structure UnitDouble where
  val : ℚ
  nonneg : 0 ≤ val
  lt_one : val < 1

/-- The double `0.5`. -/
def UnitDouble.half : UnitDouble := ⟨1 / 2, by norm_num, by norm_num⟩

/-- The GLib random generator `GRand`, as the script of its future outputs:
`tape` lists the next values it will produce, `drawn` counts the values produced
so far.  A script that has run out produces `0.5`. -/
structure GRand where
  tape : List UnitDouble
  drawn : Nat

/-- GLib `g_rand_double`: the next value in `[0, 1)`. -/
def g_rand_double (r : GRand) : ℚ × GRand :=
  match r.tape with
  | [] => (UnitDouble.half.val, { tape := [], drawn := r.drawn + 1 })
  | u :: t => (u.val, { tape := t, drawn := r.drawn + 1 })

/-- GLib `g_rand_int_range (rand, begin, end)`: an integer in `[begin, end)`;
when `end > begin` fails the argument check returns `begin` without drawing. -/
def g_rand_int_range (r : GRand) (begin_ end_ : Int) : Int × GRand :=
  if end_ > begin_ then
    let (u, r1) := g_rand_double r
    (begin_ + ⌊u * ((end_ - begin_ : Int) : ℚ)⌋, r1)
  else (begin_, r)

/-! ## Data model -/

/-- The enum `GstNetSimDistribution`. -/
inductive GstNetSimDistribution
  | DISTRIBUTION_UNIFORM
  | DISTRIBUTION_NORMAL
  deriving DecidableEq, Repr

/-- The struct `NormalDistributionState`. -/
structure NormalDistributionState where
  generate : Bool
  z0 : ℚ
  z1 : ℚ

/-- A buffer: an identity and the byte size reported by `gst_buffer_map`. -/
structure GstBuffer where
  id : Nat
  size : Nat
  deriving DecidableEq, Repr

/-- The enum `GstFlowReturn` (the values a pad push can return). -/
inductive GstFlowReturn
  | GST_FLOW_OK
  | GST_FLOW_NOT_LINKED
  | GST_FLOW_FLUSHING
  | GST_FLOW_EOS
  | GST_FLOW_NOT_NEGOTIATED
  | GST_FLOW_ERROR
  | GST_FLOW_NOT_SUPPORTED
  deriving DecidableEq, Repr

/-- The struct `_GstNetSimPrivate`.  `main_loop` is `none` for `NULL`. -/
structure GstNetSimPrivate where
  main_loop : Option Nat
  running : Bool
  rand_seed : GRand
  bucket_size : Nat
  prev_time : Nat
  delay_state : NormalDistributionState
  min_delay : Int
  max_delay : Int
  delay_distribution : GstNetSimDistribution
  delay_probability : ℚ
  drop_probability : ℚ
  duplicate_probability : ℚ
  drop_packets : Nat
  max_kbps : Int
  max_bucket_size : Int

/-- The messages of `GST_DEBUG_OBJECT`, `GST_LOG_OBJECT` and `GST_WARNING_OBJECT`
on the buffer path. -/
inductive DebugMsg
  | no_clock
  | clock_backwards
  | adding_tokens (tokens : Int) (bucket_size : Nat)
  | exceeds_bucket (buffer_size bucket_size : Nat)
  | taking_tokens (buffer_size bucket_size : Nat)
  | dropping_left (left : Nat)
  | dropping
  | duplicating
  | delaying (delay : Int)
  deriving DecidableEq, Repr

/-- The element together with a record of its effects, newest first:
`pushed` are the buffers handed to `gst_pad_push` on the calling thread,
`timers` the timeout sources attached to the main loop (interval in ms and
buffer), `clock_reads` counts `gst_clock_get_time` calls, `log` holds the debug
messages. -/
structure GstNetSim where
  priv : GstNetSimPrivate
  pushed : List GstBuffer
  timers : List (Int × GstBuffer)
  clock_reads : Nat
  log : List DebugMsg

/-- The math library functions used by the Box-Muller transform, on doubles. -/
structure Libm where
  sqrt : ℚ → ℚ
  log : ℚ → ℚ
  cos : ℚ → ℚ
  sin : ℚ → ℚ
  G_PI : ℚ

/-- C `round`: to the nearest integer, halfway cases away from zero. -/
def c_round (x : ℚ) : Int := if 0 ≤ x then ⌊x + 1 / 2⌋ else -⌊-x + 1 / 2⌋

/-! ## Delay sampling -/

/-- Function `get_random_value_uniform`. -/
def get_random_value_uniform (rand_seed : GRand) (min_value max_value : Int) :
    Int × GRand :=
  g_rand_int_range rand_seed min_value max_value

/-- The loop `do { u1 = g_rand_double; u2 = g_rand_double } while (u1 <= DBL_EPSILON)`
of `get_random_value_normal`.  `n` bounds the number of repetitions; the length
of the script is enough, since a script that has run out yields `u1 = 0.5`. -/
def draw_u1_u2 : Nat → GRand → ℚ × ℚ × GRand
  | 0, r =>
    let (u1, r1) := g_rand_double r
    let (u2, r2) := g_rand_double r1
    (u1, u2, r2)
  | n + 1, r =>
    let (u1, r1) := g_rand_double r
    let (u2, r2) := g_rand_double r1
    if u1 ≤ DBL_EPSILON then draw_u1_u2 n r2 else (u1, u2, r2)

/-- Function `get_random_value_normal`: a value from a normal distribution with
95% confidence interval between `low` and `high`, by the Box-Muller transform. -/
def get_random_value_normal (m : Libm) (rand_seed : GRand) (low high : Int)
    (state : NormalDistributionState) : Int × GRand × NormalDistributionState :=
  let mu : ℚ := (wrap32 (high + low) : ℚ) / 2
  let sigma : ℚ := (wrap32 (high - low) : ℚ) / (2 * (196 / 100))
  let state1 := { state with generate := !state.generate }
  if !state1.generate then
    (wrap32 (c_round (state1.z1 * sigma + mu)), rand_seed, state1)
  else
    let (u1, u2, r) := draw_u1_u2 rand_seed.tape.length rand_seed
    let t1 := m.sqrt (-2 * m.log u1)
    let t2 := 2 * m.G_PI * u2
    let state2 := { state1 with z0 := t1 * m.cos t2, z1 := t1 * m.sin t2 }
    (wrap32 (c_round (state2.z0 * sigma + mu)), r, state2)

/-- The test `p > 0 && g_rand_double (priv->rand_seed) < p` used for the drop,
duplicate and delay decisions: nothing is drawn when `p > 0` fails. -/
def probability_check (p : ℚ) (s : GstNetSim) : Bool × GstNetSim :=
  if 0 < p then
    let (u, r) := g_rand_double s.priv.rand_seed
    (decide (u < p), { s with priv := { s.priv with rand_seed := r } })
  else (false, s)

/-- The `switch (priv->delay_distribution)` of `gst_net_sim_delay_buffer`: the
sampled delay, the random source and the normal distribution state afterwards. -/
def sample_delay (m : Libm) (priv : GstNetSimPrivate) :
    Int × GRand × NormalDistributionState :=
  match priv.delay_distribution with
  | .DISTRIBUTION_UNIFORM =>
    let (d, r) := get_random_value_uniform priv.rand_seed priv.min_delay priv.max_delay
    (d, r, priv.delay_state)
  | .DISTRIBUTION_NORMAL =>
    get_random_value_normal m priv.rand_seed priv.min_delay priv.max_delay
      priv.delay_state

/-- Function `gst_net_sim_delay_buffer`.  `sink k` is the status the downstream
pad returns for the push made after `k` earlier pushes. -/
def gst_net_sim_delay_buffer (m : Libm) (sink : Nat → GstFlowReturn)
    (s : GstNetSim) (buf : GstBuffer) : GstFlowReturn × GstNetSim :=
  let (hit, s1) :=
    if s.priv.main_loop.isSome then probability_check s.priv.delay_probability s
    else (false, s)
  if hit then
    let (delay, r, st) := sample_delay m s1.priv
    let delay := if delay < 0 then 0 else delay
    (.GST_FLOW_OK,
      { s1 with
        priv := { s1.priv with rand_seed := r, delay_state := st }
        timers := (delay, buf) :: s1.timers
        log := .delaying delay :: s1.log })
  else
    (sink s1.pushed.length, { s1 with pushed := buf :: s1.pushed })

/-! ## Token bucket -/

/-- Function `get_buffer_size_in_bits`: `map.size * 8` in `gsize`. -/
def get_buffer_size_in_bits (buf : GstBuffer) : Nat := buf.size * 8 % 2 ^ 64

/-- Function `gst_net_sim_get_tokens`.  `now` is what the element clock reads,
`none` when the element has no clock. -/
def gst_net_sim_get_tokens (now : Option Nat) (s : GstNetSim) : Int × GstNetSim :=
  if s.priv.max_kbps = -1 then
    (wrap32 ((toU64 (wrap32 (s.priv.max_bucket_size * 1000)) + 2 ^ 64
        - s.priv.bucket_size % 2 ^ 64 : Nat) % 2 ^ 64 : Nat), s)
  else
    let (current_time, s1) :=
      match now with
      | none => (0, { s with log := .no_clock :: s.log })
      | some t => (t, { s with clock_reads := s.clock_reads + 1 })
    let (elapsed_time, s2) :=
      if GST_CLOCK_TIME_IS_VALID s1.priv.prev_time then
        if current_time < s1.priv.prev_time then
          (0, { s1 with log := .clock_backwards :: s1.log })
        else (current_time - s1.priv.prev_time, s1)
      else (0, { s1 with priv := { s1.priv with prev_time := current_time } })
    let tokens : Int :=
      wrap32 (gst_util_uint64_scale_int elapsed_time
        (wrap32 (s2.priv.max_kbps * 1000)) GST_SECOND)
    let token_time : Nat :=
      gst_util_uint64_scale_int GST_SECOND tokens (wrap32 (s2.priv.max_kbps * 1000))
    (tokens,
      { s2 with priv := { s2.priv with
          prev_time := (s2.priv.prev_time + token_time) % 2 ^ 64 } })

/-- Function `gst_net_sim_token_bucket`: `true` when the buffer is admitted. -/
def gst_net_sim_token_bucket (now : Option Nat) (s : GstNetSim) (buf : GstBuffer) :
    Bool × GstNetSim :=
  if s.priv.max_bucket_size = -1 then (true, s)
  else
    let buffer_size := get_buffer_size_in_bits buf
    let (tokens, s1) := gst_net_sim_get_tokens now s
    let sum := (s1.priv.bucket_size + toU64 tokens) % 2 ^ 64
    let b1 := if G_MAXINT.toNat < sum then G_MAXINT.toNat else sum
    let s2 := { s1 with log := .adding_tokens tokens b1 :: s1.log }
    let cap := toU64 (wrap32 (s2.priv.max_bucket_size * 1000))
    let b2 := if s2.priv.max_bucket_size ≠ -1 ∧ cap < b1 then cap else b1
    if b2 < buffer_size then
      (false, { s2 with
        priv := { s2.priv with bucket_size := b2 }
        log := .exceeds_bucket buffer_size b2 :: s2.log })
    else
      (true, { s2 with
        priv := { s2.priv with bucket_size := b2 - buffer_size }
        log := .taking_tokens buffer_size (b2 - buffer_size) :: s2.log })

/-! ## The chain function -/

/-- Function `gst_net_sim_chain`. -/
def gst_net_sim_chain (m : Libm) (sink : Nat → GstFlowReturn) (now : Option Nat)
    (s : GstNetSim) (buf : GstBuffer) : GstFlowReturn × GstNetSim :=
  let (admitted, s1) := gst_net_sim_token_bucket now s buf
  if !admitted then (.GST_FLOW_OK, s1)
  else if 0 < s1.priv.drop_packets then
    let left := s1.priv.drop_packets - 1
    (.GST_FLOW_OK,
      { s1 with
        priv := { s1.priv with drop_packets := left }
        log := .dropping_left left :: s1.log })
  else
    let (drop, s2) := probability_check s1.priv.drop_probability s1
    if drop then (.GST_FLOW_OK, { s2 with log := .dropping :: s2.log })
    else
      let (dup, s3) := probability_check s2.priv.duplicate_probability s2
      if dup then
        let s4 := { s3 with log := .duplicating :: s3.log }
        let (_, s5) := gst_net_sim_delay_buffer m sink s4 buf
        gst_net_sim_delay_buffer m sink s5 buf
      else gst_net_sim_delay_buffer m sink s3 buf

/-! ## Properties and construction -/

/-- A property id of `gst_net_sim_set_property` together with the value set. -/
inductive PropValue
  | PROP_MIN_DELAY (v : Int)
  | PROP_MAX_DELAY (v : Int)
  | PROP_DELAY_DISTRIBUTION (v : GstNetSimDistribution)
  | PROP_DELAY_PROBABILITY (v : ℚ)
  | PROP_DROP_PROBABILITY (v : ℚ)
  | PROP_DUPLICATE_PROBABILITY (v : ℚ)
  | PROP_DROP_PACKETS (v : Nat)
  | PROP_MAX_KBPS (v : Int)
  | PROP_MAX_BUCKET_SIZE (v : Int)

/-- Function `gst_net_sim_set_property`. -/
def gst_net_sim_set_property (s : GstNetSim) : PropValue → GstNetSim
  | .PROP_MIN_DELAY v => { s with priv := { s.priv with min_delay := v } }
  | .PROP_MAX_DELAY v => { s with priv := { s.priv with max_delay := v } }
  | .PROP_DELAY_DISTRIBUTION v =>
    { s with priv := { s.priv with delay_distribution := v } }
  | .PROP_DELAY_PROBABILITY v =>
    { s with priv := { s.priv with delay_probability := v } }
  | .PROP_DROP_PROBABILITY v =>
    { s with priv := { s.priv with drop_probability := v } }
  | .PROP_DUPLICATE_PROBABILITY v =>
    { s with priv := { s.priv with duplicate_probability := v } }
  | .PROP_DROP_PACKETS v => { s with priv := { s.priv with drop_packets := v } }
  | .PROP_MAX_KBPS v => { s with priv := { s.priv with max_kbps := v } }
  | .PROP_MAX_BUCKET_SIZE v =>
    let priv1 := { s.priv with max_bucket_size := v }
    if priv1.max_bucket_size ≠ -1 then
      { s with priv := { priv1 with
          bucket_size := toU64 (wrap32 (priv1.max_bucket_size * 1000)) } }
    else { s with priv := priv1 }

/-- Function `gst_net_sim_init` followed by the construct-time defaults
(`DEFAULT_MIN_DELAY` ... `DEFAULT_MAX_BUCKET_SIZE`); the private struct starts
zeroed, so `bucket_size` is 0. -/
def gst_net_sim_init (rand_seed : GRand) : GstNetSim :=
  { priv :=
      { main_loop := none
        running := false
        rand_seed := rand_seed
        bucket_size := 0
        prev_time := GST_CLOCK_TIME_NONE
        delay_state := { generate := false, z0 := 0, z1 := 0 }
        min_delay := 200
        max_delay := 400
        delay_distribution := .DISTRIBUTION_UNIFORM
        delay_probability := 0
        drop_probability := 0
        duplicate_probability := 0
        drop_packets := 0
        max_kbps := -1
        max_bucket_size := -1 }
    pushed := []
    timers := []
    clock_reads := 0
    log := [] }

/-! ## Runs over several arrivals -/

/-- One arrival on the sink pad: the buffer and what the clock reads then. -/
structure Arrival where
  buf : GstBuffer
  now : Option Nat

/-- The element after `gst_net_sim_chain` has been called for each arrival in
turn. -/
def chain_run (m : Libm) (sink : Nat → GstFlowReturn) :
    GstNetSim → List Arrival → GstNetSim
  | s, [] => s
  | s, a :: rest => chain_run m sink (gst_net_sim_chain m sink a.now s a.buf).2 rest

/-- The admission results of `gst_net_sim_token_bucket` called for each buffer of
a burst in turn, every call seeing the clock reading `now`, and the element
afterwards. -/
def token_bucket_burst (now : Option Nat) :
    GstNetSim → List GstBuffer → List Bool × GstNetSim
  | s, [] => ([], s)
  | s, buf :: rest =>
    let (ok, s1) := gst_net_sim_token_bucket now s buf
    let (oks, s2) := token_bucket_burst now s1 rest
    (ok :: oks, s2)

/-- The number of times a buffer has left the element or been scheduled to:
synchronous pushes plus timeout sources. -/
def forwards (s : GstNetSim) : Nat := s.pushed.length + s.timers.length

/-- The bucket content after the add-and-clamp step of
`gst_net_sim_token_bucket`, from the content before, the tokens and the
property value. -/
def add_and_clamp (bucket_size : Nat) (tokens max_bucket_size : Int) : Nat :=
  let sum := (bucket_size + toU64 tokens) % 2 ^ 64
  let b1 := if G_MAXINT.toNat < sum then G_MAXINT.toNat else sum
  let cap := toU64 (wrap32 (max_bucket_size * 1000))
  if max_bucket_size ≠ -1 ∧ cap < b1 then cap else b1

/-- The generator after `k` further `g_rand_double` calls. -/
def g_rand_skip : Nat → GRand → GRand
  | 0, r => r
  | k + 1, r => g_rand_skip k (g_rand_double r).2

/-- The value the `k`-th next `g_rand_double` call will return (`k = 0` is the
next call). -/
def g_rand_peek (r : GRand) (k : Nat) : ℚ := (g_rand_double (g_rand_skip k r)).1

/-- The element after `k` values have been drawn from its random source. -/
def skip_draws (k : Nat) (s : GstNetSim) : GstNetSim :=
  { s with priv := { s.priv with rand_seed := g_rand_skip k s.priv.rand_seed } }

/-- The four outcomes of one arrival. -/
inductive Outcome
  | rejected
  | dropped
  | forwarded_twice
  | forwarded_once
  deriving DecidableEq, Repr

/-- The decision order in the words of the specification (section 4.5, steps
1 to 5): the outcome for one arrival and the number of uniform doubles the
decision stages draw, given the admission result, the drop countdown, the two
probabilities and the upcoming outputs `u 0, u 1, ...` of the random source. -/
def spec_decision (admitted : Bool) (drop_packets : Nat)
    (drop_probability duplicate_probability : ℚ) (u : Nat → ℚ) : Outcome × Nat :=
  if admitted = false then (.rejected, 0)
  else if 0 < drop_packets then (.dropped, 0)
  else
    let k := if 0 < drop_probability then 1 else 0
    if 0 < drop_probability ∧ u 0 < drop_probability then (.dropped, k)
    else if 0 < duplicate_probability then
      if u k < duplicate_probability then (.forwarded_twice, k + 1)
      else (.forwarded_once, k + 1)
    else (.forwarded_once, k)

/-- The admission results for a burst in the words of the specification: a
buffer is admitted when its bit length fits the budget left by the buffers
admitted before it. -/
def spec_burst : Nat → List Nat → List Bool
  | _, [] => []
  | budget, bits :: rest =>
    if bits ≤ budget then true :: spec_burst (budget - bits) rest
    else false :: spec_burst budget rest

/-- The total bit length of the buffers of a burst that were admitted. -/
def admitted_bits : List Bool → List Nat → Nat
  | ok :: oks, bits :: rest => (if ok then bits else 0) + admitted_bits oks rest
  | _, _ => 0

/-- Relation between an element and a later one that differs from it at most
in the token state (`bucket_size`, `prev_time`), the countdown, the random
source, the cached normal samples and the recorded effects: all properties other
than `drop-packets`, and the scheduler fields, are the same. -/
def same_config (s s' : GstNetSim) : Prop :=
  ∃ b pt dp r st pu ti cr lg, s' =
    { priv := { s.priv with
        bucket_size := b, prev_time := pt, drop_packets := dp, rand_seed := r,
        delay_state := st }
      pushed := pu
      timers := ti
      clock_reads := cr
      log := lg }

/-- The `Dropping packet (%d left)` messages, newest first, that `k` countdown
drops starting from `drop_packets = n` leave in the log. -/
def countdown_log : Nat → Nat → List DebugMsg
  | _, 0 => []
  | n, k + 1 => countdown_log (n - 1) k ++ [.dropping_left (n - 1)]

/-- The random source and the normal distribution state after `n` successive
calls of `get_random_value_normal` with the bounds `low` and `high`. -/
def normal_calls (m : Libm) (low high : Int) :
    Nat → GRand × NormalDistributionState → GRand × NormalDistributionState
  | 0, x => x
  | n + 1, x =>
    (get_random_value_normal m (normal_calls m low high n x).1 low high
      (normal_calls m low high n x).2).2

/-- The total of the tokens returned by `gst_net_sim_get_tokens` called once for
each clock reading in turn, and the element afterwards. -/
def get_tokens_run : GstNetSim → List (Option Nat) → Int × GstNetSim
  | s, [] => (0, s)
  | s, now :: rest =>
    let (t, s1) := gst_net_sim_get_tokens now s
    let (ts, s2) := get_tokens_run s1 rest
    (t + ts, s2)

/-- A run of `gst_net_sim_token_bucket` calls on an element with a finite
bucket: the total bit length of the admitted buffers, the total of the tokens
`gst_net_sim_get_tokens` returned to the calls, and the element afterwards. -/
def token_bucket_run : GstNetSim → List Arrival → Nat × Int × GstNetSim
  | s, [] => (0, 0, s)
  | s, a :: rest =>
    let t := (gst_net_sim_get_tokens a.now s).1
    let (ok, s1) := gst_net_sim_token_bucket a.now s a.buf
    let (bits, ts, s2) := token_bucket_run s1 rest
    ((if ok then get_buffer_size_in_bits a.buf else 0) + bits, t + ts, s2)

/-- Every `gst_net_sim_get_tokens` call made by a run of
`gst_net_sim_token_bucket` calls returns a non-negative amount. -/
def tokens_nonneg : GstNetSim → List Arrival → Prop
  | _, [] => True
  | s, a :: rest =>
    0 ≤ (gst_net_sim_get_tokens a.now s).1 ∧
      tokens_nonneg (gst_net_sim_token_bucket a.now s a.buf).2 rest

/-- Every call of a `get_tokens_run` over the clock readings sees a reading
below `GST_CLOCK_TIME_NONE` and not before `prev_time`, and an elapsed time worth
fewer than `2^31` tokens. -/
def readings_in_range : GstNetSim → List Nat → Prop
  | _, [] => True
  | s, t :: rest =>
    t < GST_CLOCK_TIME_NONE ∧ s.priv.prev_time ≤ t ∧
      (t - s.priv.prev_time) * (s.priv.max_kbps * 1000).toNat / 1000000000 < 2 ^ 31 ∧
      readings_in_range (gst_net_sim_get_tokens (some t) s).2 rest

/-! ## The scheduler -/

/-- The calls the scheduler functions make to GLib and to the pad task, counted:
`loops_created` for `g_main_loop_new`, `task_starts` for `gst_pad_start_task`,
`quit_sources` for the idle sources attached by the deactivation,
`loop_unrefs` for `g_main_loop_unref (priv->main_loop)` in the activation
function, `cond_waits` for `g_cond_wait`, `task_pauses` for
`gst_pad_pause_task` and `task_stops` for `gst_pad_stop_task`. -/
structure SchedulerCalls where
  loops_created : Nat
  task_starts : Nat
  quit_sources : Nat
  loop_unrefs : Nat
  cond_waits : Nat
  task_pauses : Nat
  task_stops : Nat
  deriving DecidableEq, Repr

/-- The ways a call of the activation function fails to return: a `g_assert`
aborts, or the `g_cond_wait` loop is never woken. -/
inductive SchedulerFault
  | assertion_failed
  | waits_forever
  deriving DecidableEq, Repr

/-- One call of `gst_net_sim_src_activatemode`: the argument `active` and what
`gst_pad_start_task` and `gst_pad_stop_task` return if the call reaches them. -/
structure ActivateCall where
  active : Bool
  start_task : Bool
  stop_task : Bool
  deriving DecidableEq, Repr

/-- Function `gst_net_sim_loop` up to `g_main_loop_run`: the task takes the
lock, sets `running` and signals the condition. -/
def gst_net_sim_loop_begin (priv : GstNetSimPrivate) : GstNetSimPrivate :=
  { priv with running := true }

/-- Function `gst_net_sim_loop` after `g_main_loop_run` has returned: the task
takes the lock, pauses itself, clears `running` and signals the condition. -/
def gst_net_sim_loop_end (priv : GstNetSimPrivate) (e : SchedulerCalls) :
    GstNetSimPrivate × SchedulerCalls :=
  ({ priv with running := false }, { e with task_pauses := e.task_pauses + 1 })

/-- Function `gst_net_sim_src_activatemode`, sequentially: the caller holds the
lock until it waits on the condition, so the task runs `gst_net_sim_loop_begin`
during the wait of the activation (if `gst_pad_start_task` started it; otherwise
nothing ever sets `running`), and the idle source quits the loop and the task
runs `gst_net_sim_loop_end` during the wait of the deactivation.  The new loop
handle is numbered by the loops created before. -/
def gst_net_sim_src_activatemode (c : ActivateCall) (priv : GstNetSimPrivate)
    (e : SchedulerCalls) :
    Except SchedulerFault (Bool × GstNetSimPrivate × SchedulerCalls) :=
  if c.active then
    match priv.main_loop with
    | none =>
      let priv1 := { priv with main_loop := some e.loops_created }
      let e1 := { e with
        loops_created := e.loops_created + 1
        task_starts := e.task_starts + 1 }
      let result := c.start_task
      if priv1.running then .error .assertion_failed
      else if c.start_task then
        .ok (result, gst_net_sim_loop_begin priv1,
          { e1 with cond_waits := e1.cond_waits + 1 })
      else .error .waits_forever
    | some _ => .ok (false, priv, e)
  else
    match priv.main_loop with
    | some _ =>
      let e1 := { e with
        quit_sources := e.quit_sources + 1
        loop_unrefs := e.loop_unrefs + 1 }
      let priv1 := { priv with main_loop := none }
      if priv1.running then
        let (priv2, e2) :=
          gst_net_sim_loop_end priv1 { e1 with cond_waits := e1.cond_waits + 1 }
        let result := c.stop_task
        .ok (result, priv2, { e2 with task_stops := e2.task_stops + 1 })
      else .error .assertion_failed
    | none => .ok (false, priv, e)

/-- A sequence of `gst_net_sim_src_activatemode` calls; the results are listed
in call order, and a call that does not return ends the run. -/
def activatemode_run : GstNetSimPrivate → SchedulerCalls → List ActivateCall →
    Except SchedulerFault (List Bool × GstNetSimPrivate × SchedulerCalls)
  | priv, e, [] => .ok ([], priv, e)
  | priv, e, c :: rest =>
    match gst_net_sim_src_activatemode c priv e with
    | .error f => .error f
    | .ok (r, priv1, e1) =>
      match activatemode_run priv1 e1 rest with
      | .error f => .error f
      | .ok (rs, priv2, e2) => .ok (r :: rs, priv2, e2)

/-- The loop handle is present exactly when the task is running. -/
def scheduler_consistent (priv : GstNetSimPrivate) : Prop :=
  priv.main_loop ≠ none ↔ priv.running = true

/-- No scheduler call made yet. -/
def no_calls : SchedulerCalls :=
  { loops_created := 0, task_starts := 0, quit_sources := 0, loop_unrefs := 0,
    cond_waits := 0, task_pauses := 0, task_stops := 0 }

/-! ## Concrete elements used to instantiate the theorems -/

/-- A math library stand-in for concrete evaluation. -/
def sample_libm : Libm :=
  { sqrt := fun x => x, log := fun x => x, cos := fun x => x, sin := fun x => x, G_PI := 3 }

/-- A sink that accepts every push. -/
def sample_sink : Nat → GstFlowReturn := fun _ => .GST_FLOW_OK

/-- A freshly constructed element whose random source script is empty. -/
def sample_element : GstNetSim := gst_net_sim_init { tape := [], drawn := 0 }

/-- A freshly constructed element with `max-bucket-size` set to `m` and
`drop-packets` set to `n`. -/
def sample_bucket_element (m : Int) (n : Nat) : GstNetSim :=
  gst_net_sim_set_property
    (gst_net_sim_set_property sample_element (.PROP_MAX_BUCKET_SIZE m))
    (.PROP_DROP_PACKETS n)

/-- An element with `max-kbps` set to 4294968 whose first token computation
happened at clock reading 0. -/
def sample_fast_element : GstNetSim :=
  (gst_net_sim_get_tokens (some 0)
    (gst_net_sim_set_property sample_element (.PROP_MAX_KBPS 4294968))).2

/-- A sink that answers the second push (after one earlier push) with
`GST_FLOW_ERROR` and every other push with `GST_FLOW_OK`. -/
def sample_failing_sink : Nat → GstFlowReturn :=
  fun k => if k = 1 then .GST_FLOW_ERROR else .GST_FLOW_OK

/-- A freshly constructed element with `duplicate-probability` set to 1. -/
def sample_dup_element : GstNetSim :=
  gst_net_sim_set_property sample_element (.PROP_DUPLICATE_PROBABILITY 1)

/-- An element whose scheduler loop is present, with `delay-probability` 1 and
the delay bounds `lo` and `hi`. -/
def sample_running_element (lo hi : Int) : GstNetSim :=
  { sample_element with
    priv := { sample_element.priv with
      main_loop := some 0
      running := true
      delay_probability := 1
      min_delay := lo
      max_delay := hi } }

/-- A freshly constructed element with `max-kbps` set to 0. -/
def sample_zero_rate_element : GstNetSim :=
  gst_net_sim_set_property sample_element (.PROP_MAX_KBPS 0)

/-- An element with `max-kbps` set to 800 whose first token computation
happened at clock reading 1. -/
def sample_idle_element : GstNetSim :=
  (gst_net_sim_get_tokens (some 1)
    (gst_net_sim_set_property sample_element (.PROP_MAX_KBPS 800))).2

/-- An element with `max-kbps` set to 2147484 after a token computation at
clock reading 10. -/
def sample_overflow_element : GstNetSim :=
  (gst_net_sim_get_tokens (some 10)
    (gst_net_sim_set_property sample_element (.PROP_MAX_KBPS 2147484))).2

/-- A freshly constructed element (no scheduler loop) with `delay-probability`
set to 1. -/
def sample_stopped_element : GstNetSim :=
  gst_net_sim_set_property sample_element (.PROP_DELAY_PROBABILITY 1)

/-- A freshly constructed element with `max-kbps` set to 3. -/
def sample_slow_element : GstNetSim :=
  gst_net_sim_set_property sample_element (.PROP_MAX_KBPS 3)

/-- An element with `max-kbps` 800 and `max-bucket-size` 100 that has admitted a
buffer of 12500 bytes (100000 bits) at clock reading 0, so its bucket is empty. -/
def sample_drained_element : GstNetSim :=
  (gst_net_sim_token_bucket (some 0)
    (gst_net_sim_set_property
      (gst_net_sim_set_property sample_element (.PROP_MAX_KBPS 800))
      (.PROP_MAX_BUCKET_SIZE 100))
    ⟨0, 12500⟩).2

/-- The element of `sample_drained_element` (`max-kbps` 800, `prev_time` 0)
after `max-bucket-size` is set to 100 again, which refills the bucket to 100000
bits. -/
def sample_reset_element : GstNetSim :=
  gst_net_sim_set_property sample_drained_element (.PROP_MAX_BUCKET_SIZE 100)

/-- An activation whose task start succeeds. -/
def sample_activate : ActivateCall :=
  { active := true, start_task := true, stop_task := true }

/-- A deactivation whose task stop succeeds. -/
def sample_deactivate : ActivateCall :=
  { active := false, start_task := true, stop_task := true }

/-! ## Basic facts about the integer conversions -/

theorem wrap32_of_range (x : Int) (h0 : -2147483648 ≤ x) (h1 : x ≤ 2147483647) :
    wrap32 x = x := by
  unfold wrap32; omega

theorem wrap32_range (x : Int) : -2147483648 ≤ wrap32 x ∧ wrap32 x ≤ 2147483647 := by
  unfold wrap32; omega

theorem toU64_of_nonneg (x : Int) (h0 : 0 ≤ x) (h1 : x < 18446744073709551616) :
    toU64 x = x.toNat := by
  unfold toU64; congr 1; omega

theorem toU64_of_neg (x : Int) (h0 : x < 0) (h1 : -18446744073709551616 ≤ x) :
    toU64 x = (x + 18446744073709551616).toNat := by
  unfold toU64; congr 1; omega

theorem get_tokens_frame (now : Option Nat) (s : GstNetSim) :
    ∃ pt cr lg, (gst_net_sim_get_tokens now s).2 =
      { s with priv := { s.priv with prev_time := pt }, clock_reads := cr, log := lg } := by
  unfold gst_net_sim_get_tokens
  by_cases hk : s.priv.max_kbps = -1
  · exact ⟨s.priv.prev_time, s.clock_reads, s.log, by rw [if_pos hk]⟩
  · cases now <;> simp only [hk, if_false] <;> split_ifs <;> exact ⟨_, _, _, rfl⟩

theorem get_tokens_range (now : Option Nat) (s : GstNetSim) :
    -2147483648 ≤ (gst_net_sim_get_tokens now s).1 ∧
      (gst_net_sim_get_tokens now s).1 ≤ 2147483647 := by
  unfold gst_net_sim_get_tokens
  by_cases hk : s.priv.max_kbps = -1
  · simp only [hk, if_true]; exact wrap32_range _
  · cases now <;> simp only [hk, if_false] <;> split_ifs <;> exact wrap32_range _

theorem token_bucket_unlimited (now : Option Nat) (s : GstNetSim) (buf : GstBuffer)
    (h : s.priv.max_bucket_size = -1) :
    gst_net_sim_token_bucket now s buf = (true, s) := by
  simp [gst_net_sim_token_bucket, h]

theorem token_bucket_finite (now : Option Nat) (s : GstNetSim) (buf : GstBuffer)
    (h : s.priv.max_bucket_size ≠ -1) :
    ∃ lg,
      gst_net_sim_token_bucket now s buf =
        (decide (get_buffer_size_in_bits buf ≤
            add_and_clamp s.priv.bucket_size (gst_net_sim_get_tokens now s).1
              s.priv.max_bucket_size),
          { s with
            priv := { s.priv with
              prev_time := (gst_net_sim_get_tokens now s).2.priv.prev_time
              bucket_size :=
                if add_and_clamp s.priv.bucket_size (gst_net_sim_get_tokens now s).1
                    s.priv.max_bucket_size < get_buffer_size_in_bits buf
                then add_and_clamp s.priv.bucket_size (gst_net_sim_get_tokens now s).1
                    s.priv.max_bucket_size
                else add_and_clamp s.priv.bucket_size (gst_net_sim_get_tokens now s).1
                    s.priv.max_bucket_size - get_buffer_size_in_bits buf }
            clock_reads := (gst_net_sim_get_tokens now s).2.clock_reads
            log := lg }) := by
  obtain ⟨pt, cr, lg, hfr⟩ := get_tokens_frame now s
  generalize hg : gst_net_sim_get_tokens now s = g at hfr
  obtain ⟨t, s1⟩ := g
  simp only at hfr
  subst hfr
  simp only [gst_net_sim_token_bucket, h, if_false, hg, add_and_clamp, ne_eq, not_false_eq_true,
    true_and]
  split_ifs <;> refine ⟨_, Prod.ext ?_ rfl⟩ <;> first
    | exact (decide_eq_false (by omega)).symm
    | exact (decide_eq_true (by omega)).symm

theorem add_and_clamp_in_range (bucket_size : Nat) (t M : Int) (h0 : 0 ≤ M)
    (hcap : M * 1000 ≤ 2147483647) (hb : (bucket_size : Int) ≤ M * 1000)
    (ht0 : 0 ≤ t) (ht1 : t ≤ 2147483647) :
    (add_and_clamp bucket_size t M : Int) = min (M * 1000) (bucket_size + t) := by
  have hne : M ≠ -1 := by omega
  unfold add_and_clamp G_MAXINT
  rw [wrap32_of_range _ (by omega) (by omega), toU64_of_nonneg _ (by omega) (by omega),
    toU64_of_nonneg _ (by omega) (by omega)]
  simp only [ne_eq, hne, not_false_eq_true, true_and]
  split_ifs <;> omega

/-! ## What the forwarding functions leave alone -/

theorem g_rand_skip_succ (k : Nat) (r : GRand) :
    g_rand_skip (k + 1) r = (g_rand_double (g_rand_skip k r)).2 := by
  induction k generalizing r with
  | zero => rfl
  | succ n ih => simp only [g_rand_skip] at ih ⊢; exact ih _

theorem g_rand_double_drawn (r : GRand) : (g_rand_double r).2.drawn = r.drawn + 1 := by
  unfold g_rand_double; split <;> rfl

theorem g_rand_skip_drawn (k : Nat) (r : GRand) : (g_rand_skip k r).drawn = r.drawn + k := by
  induction k generalizing r with
  | zero => rfl
  | succ n ih => simp only [g_rand_skip, ih, g_rand_double_drawn]; omega

theorem g_rand_skip_add (k j : Nat) (r : GRand) :
    g_rand_skip j (g_rand_skip k r) = g_rand_skip (k + j) r := by
  induction k generalizing r with
  | zero => simp [g_rand_skip]
  | succ n ih =>
    have h : n + 1 + j = (n + j) + 1 := by omega
    rw [h]
    simp only [g_rand_skip]
    exact ih _

theorem g_rand_peek_skip (k j : Nat) (r : GRand) :
    g_rand_peek (g_rand_skip k r) j = g_rand_peek r (k + j) := by
  unfold g_rand_peek; rw [g_rand_skip_add]

theorem skip_draws_add (k j : Nat) (s : GstNetSim) :
    skip_draws j (skip_draws k s) = skip_draws (k + j) s := by
  simp [skip_draws, g_rand_skip_add]

theorem skip_draws_zero (s : GstNetSim) : skip_draws 0 s = s := rfl

theorem probability_check_zero (p : ℚ) (s : GstNetSim) (h : ¬ 0 < p) :
    probability_check p s = (false, s) := by
  simp [probability_check, h]

theorem probability_check_pos (p : ℚ) (s : GstNetSim) (h : 0 < p) :
    probability_check p s =
      (decide (g_rand_peek s.priv.rand_seed 0 < p), skip_draws 1 s) := by
  simp [probability_check, h, g_rand_peek, skip_draws, g_rand_skip]

theorem delay_buffer_forwards (m : Libm) (sink : Nat → GstFlowReturn) (s : GstNetSim)
    (buf : GstBuffer) :
    forwards (gst_net_sim_delay_buffer m sink s buf).2 = forwards s + 1 := by
  unfold gst_net_sim_delay_buffer
  by_cases hl : s.priv.main_loop.isSome = true
  · by_cases hp : 0 < s.priv.delay_probability
    · simp only [hl, if_true, probability_check_pos _ _ hp]
      split_ifs <;> simp [forwards, skip_draws] <;> omega
    · simp only [hl, if_true, probability_check_zero _ _ hp]
      simp [forwards]; omega
  · simp only [hl]
    simp [forwards]; omega

theorem forwards_skip_draws (k : Nat) (s : GstNetSim) :
    forwards (skip_draws k s) = forwards s := rfl

theorem forwards_with_log (s : GstNetSim) (l : List DebugMsg) :
    forwards { s with log := l } = forwards s := rfl

theorem token_bucket_frame (now : Option Nat) (s : GstNetSim) (buf : GstBuffer) :
    ∃ b pt cr lg, (gst_net_sim_token_bucket now s buf).2 =
      { s with
        priv := { s.priv with bucket_size := b, prev_time := pt }
        clock_reads := cr
        log := lg } := by
  by_cases h : s.priv.max_bucket_size = -1
  · rw [token_bucket_unlimited now s buf h]
    exact ⟨s.priv.bucket_size, s.priv.prev_time, s.clock_reads, s.log, rfl⟩
  · obtain ⟨lg, h1⟩ := token_bucket_finite now s buf h
    rw [h1]
    exact ⟨_, _, _, _, rfl⟩

theorem chain_of_rejected (m : Libm) (sink : Nat → GstFlowReturn) (now : Option Nat)
    (s : GstNetSim) (buf : GstBuffer)
    (h : (gst_net_sim_token_bucket now s buf).1 = false) :
    gst_net_sim_chain m sink now s buf =
      (.GST_FLOW_OK, (gst_net_sim_token_bucket now s buf).2) := by
  unfold gst_net_sim_chain
  generalize gst_net_sim_token_bucket now s buf = tb at h
  obtain ⟨adm, s1⟩ := tb
  simp only at h
  subst h
  rfl

theorem chain_of_countdown (m : Libm) (sink : Nat → GstFlowReturn) (now : Option Nat)
    (s : GstNetSim) (buf : GstBuffer)
    (h : (gst_net_sim_token_bucket now s buf).1 = true)
    (hd : 0 < (gst_net_sim_token_bucket now s buf).2.priv.drop_packets) :
    gst_net_sim_chain m sink now s buf =
      (.GST_FLOW_OK,
        { (gst_net_sim_token_bucket now s buf).2 with
          priv := { (gst_net_sim_token_bucket now s buf).2.priv with
            drop_packets := (gst_net_sim_token_bucket now s buf).2.priv.drop_packets - 1 }
          log := .dropping_left
              ((gst_net_sim_token_bucket now s buf).2.priv.drop_packets - 1) ::
            (gst_net_sim_token_bucket now s buf).2.log }) := by
  unfold gst_net_sim_chain
  generalize gst_net_sim_token_bucket now s buf = tb at h hd
  obtain ⟨adm, s1⟩ := tb
  simp only at h hd
  subst h
  simp [hd]

theorem probability_check_frame (p : ℚ) (s : GstNetSim) :
    ∃ r, (probability_check p s).2 = { s with priv := { s.priv with rand_seed := r } } := by
  by_cases h : 0 < p
  · rw [probability_check_pos p s h]; exact ⟨_, rfl⟩
  · rw [probability_check_zero p s h]; exact ⟨s.priv.rand_seed, rfl⟩

theorem delay_buffer_frame (m : Libm) (sink : Nat → GstFlowReturn) (s : GstNetSim)
    (buf : GstBuffer) :
    ∃ r st pu ti lg, (gst_net_sim_delay_buffer m sink s buf).2 =
      { s with
        priv := { s.priv with rand_seed := r, delay_state := st }
        pushed := pu
        timers := ti
        log := lg } := by
  unfold gst_net_sim_delay_buffer
  by_cases hl : s.priv.main_loop.isSome = true
  · by_cases hp : 0 < s.priv.delay_probability
    · simp only [hl, if_true, probability_check_pos _ _ hp]
      split_ifs <;> exact ⟨_, _, _, _, _, rfl⟩
    · simp only [hl, if_true, probability_check_zero _ _ hp]
      exact ⟨_, _, _, _, _, rfl⟩
  · simp only [hl]
    exact ⟨_, _, _, _, _, rfl⟩

theorem same_config_refl (s : GstNetSim) : same_config s s :=
  ⟨_, _, _, _, _, _, _, _, _, rfl⟩

theorem same_config_trans {s s' s'' : GstNetSim} (h : same_config s s')
    (h' : same_config s' s'') : same_config s s'' := by
  obtain ⟨b, pt, dp, r, st, pu, ti, cr, lg, rfl⟩ := h
  obtain ⟨b', pt', dp', r', st', pu', ti', cr', lg', rfl⟩ := h'
  exact ⟨_, _, _, _, _, _, _, _, _, rfl⟩

theorem same_config_log (s : GstNetSim) (l : List DebugMsg) :
    same_config s { s with log := l } :=
  ⟨_, _, _, _, _, _, _, _, _, rfl⟩

theorem same_config_countdown (s : GstNetSim) (n : Nat) (l : List DebugMsg) :
    same_config s { s with priv := { s.priv with drop_packets := n }, log := l } :=
  ⟨_, _, _, _, _, _, _, _, _, rfl⟩

theorem probability_check_config (p : ℚ) (s : GstNetSim) :
    same_config s (probability_check p s).2 := by
  obtain ⟨r, h⟩ := probability_check_frame p s
  rw [h]; exact ⟨_, _, _, _, _, _, _, _, _, rfl⟩

theorem delay_buffer_config (m : Libm) (sink : Nat → GstFlowReturn) (s : GstNetSim)
    (buf : GstBuffer) : same_config s (gst_net_sim_delay_buffer m sink s buf).2 := by
  obtain ⟨r, st, pu, ti, lg, h⟩ := delay_buffer_frame m sink s buf
  rw [h]; exact ⟨_, _, _, _, _, _, _, _, _, rfl⟩

theorem token_bucket_config (now : Option Nat) (s : GstNetSim) (buf : GstBuffer) :
    same_config s (gst_net_sim_token_bucket now s buf).2 := by
  obtain ⟨b, pt, cr, lg, h⟩ := token_bucket_frame now s buf
  rw [h]; exact ⟨_, _, _, _, _, _, _, _, _, rfl⟩

theorem chain_config (m : Libm) (sink : Nat → GstFlowReturn) (now : Option Nat)
    (s : GstNetSim) (buf : GstBuffer) :
    same_config s (gst_net_sim_chain m sink now s buf).2 := by
  have htb := token_bucket_config now s buf
  unfold gst_net_sim_chain
  generalize gst_net_sim_token_bucket now s buf = tb at htb
  obtain ⟨adm, s1⟩ := tb
  cases adm
  · exact htb
  · simp only [Bool.not_true, Bool.false_eq_true, if_false]
    by_cases hdp : 0 < s1.priv.drop_packets
    · simp only [hdp, if_true]
      exact same_config_trans htb (same_config_countdown _ _ _)
    · simp only [hdp, if_false]
      have h1 := probability_check_config s1.priv.drop_probability s1
      generalize probability_check s1.priv.drop_probability s1 = pc at h1
      obtain ⟨drop, s2⟩ := pc
      cases drop
      · simp only [Bool.false_eq_true, if_false]
        have h2 := probability_check_config s2.priv.duplicate_probability s2
        generalize probability_check s2.priv.duplicate_probability s2 = pc2 at h2
        obtain ⟨dup, s3⟩ := pc2
        cases dup
        · simp only [Bool.false_eq_true, if_false]
          exact same_config_trans htb (same_config_trans h1
            (same_config_trans h2 (delay_buffer_config _ _ _ _)))
        · simp only [if_true]
          exact same_config_trans htb (same_config_trans h1
            (same_config_trans h2 (same_config_trans (same_config_log _ _)
              (same_config_trans (delay_buffer_config _ _ _ _)
                (delay_buffer_config _ _ _ _)))))
      · simp only [if_true]
        exact same_config_trans htb (same_config_trans h1 (same_config_log _ _))

theorem chain_decision_aux (m : Libm) (sink : Nat → GstFlowReturn) (now : Option Nat)
    (s : GstNetSim) (buf : GstBuffer) (adm : Bool) (s1 : GstNetSim)
    (htb : gst_net_sim_token_bucket now s buf = (adm, s1))
    (d : Outcome × Nat)
    (hd : d = spec_decision adm s1.priv.drop_packets s1.priv.drop_probability
      s1.priv.duplicate_probability (g_rand_peek s1.priv.rand_seed))
    (r : GstFlowReturn × GstNetSim) (hr : r = gst_net_sim_chain m sink now s buf) :
    (d.1 = .rejected →
      r = (.GST_FLOW_OK, s1) ∧ d.2 = 0 ∧ forwards r.2 = forwards s ∧
      r.2.priv.rand_seed = s.priv.rand_seed) ∧
    (d.1 = .dropped →
      r.1 = .GST_FLOW_OK ∧ r.2.pushed = s.pushed ∧ r.2.timers = s.timers ∧
      r.2.priv.rand_seed = g_rand_skip d.2 s.priv.rand_seed) ∧
    (d.1 = .forwarded_twice →
      r = gst_net_sim_delay_buffer m sink
        (gst_net_sim_delay_buffer m sink
          { skip_draws d.2 s1 with log := .duplicating :: s1.log } buf).2 buf ∧
      forwards r.2 = forwards s + 2) ∧
    (d.1 = .forwarded_once →
      r = gst_net_sim_delay_buffer m sink (skip_draws d.2 s1) buf ∧
      forwards r.2 = forwards s + 1) := by
  obtain ⟨b, pt, cr, lg, hfr⟩ := token_bucket_frame now s buf
  rw [htb] at hfr
  simp only at hfr
  have hfw : forwards s1 = forwards s := by rw [hfr]; rfl
  have hrs : s1.priv.rand_seed = s.priv.rand_seed := by rw [hfr]
  have hpu : s1.pushed = s.pushed := by rw [hfr]
  have hti : s1.timers = s.timers := by rw [hfr]
  clear hfr
  unfold gst_net_sim_chain at hr
  rw [htb] at hr
  unfold spec_decision at hd
  simp only at hr hd
  cases adm
  · simp only [if_true, Bool.not_false] at hr hd
    subst hr hd
    simp [hfw, hrs]
  · simp only [Bool.not_true, Bool.false_eq_true, if_false] at hr hd
    by_cases hdp : 0 < s1.priv.drop_packets
    · simp only [hdp, if_true] at hr hd
      subst hr hd
      simp [hpu, hti, hrs, g_rand_skip]
    · simp only [hdp, if_false] at hr hd
      by_cases hp : 0 < s1.priv.drop_probability
      · rw [probability_check_pos _ _ hp] at hr
        simp only [hp, if_true, true_and] at hd
        by_cases hu : g_rand_peek s1.priv.rand_seed 0 < s1.priv.drop_probability
        · simp only [hu, decide_True, if_true] at hr hd
          subst hr hd
          simp [hpu, hti, hrs, skip_draws]
        · simp only [hu, decide_False, if_false, Bool.false_eq_true] at hr hd
          have hq1 : (skip_draws 1 s1).priv.duplicate_probability =
            s1.priv.duplicate_probability := rfl
          have hq2 : g_rand_peek (skip_draws 1 s1).priv.rand_seed 0 =
            g_rand_peek s1.priv.rand_seed 1 := g_rand_peek_skip 1 0 _
          by_cases hq : 0 < s1.priv.duplicate_probability
          · rw [hq1, probability_check_pos _ _ hq, hq2, skip_draws_add] at hr
            simp only [hq, if_true] at hd
            by_cases hv : g_rand_peek s1.priv.rand_seed 1 < s1.priv.duplicate_probability
            · simp only [hv, decide_True, if_true] at hr hd
              subst hr hd
              simp [delay_buffer_forwards, hfw, forwards_skip_draws, forwards_with_log]; rfl
            · simp only [hv, decide_False, if_false, Bool.false_eq_true] at hr hd
              subst hr hd
              simp [delay_buffer_forwards, hfw, forwards_skip_draws, forwards_with_log]
          · rw [hq1, probability_check_zero _ _ hq] at hr
            simp only [hq, if_false, Bool.false_eq_true] at hr hd
            subst hr hd
            simp [delay_buffer_forwards, hfw, forwards_skip_draws, forwards_with_log]
      · rw [probability_check_zero _ _ hp] at hr
        simp only [hp, if_false, false_and, Bool.false_eq_true] at hr hd
        by_cases hq : 0 < s1.priv.duplicate_probability
        · rw [probability_check_pos _ _ hq] at hr
          simp only [hq, if_true] at hd
          by_cases hv : g_rand_peek s1.priv.rand_seed 0 < s1.priv.duplicate_probability
          · simp only [hv, decide_True, if_true] at hr hd
            subst hr hd
            simp [delay_buffer_forwards, hfw, forwards_skip_draws, forwards_with_log]; rfl
          · simp only [hv, decide_False, if_false, Bool.false_eq_true] at hr hd
            subst hr hd
            simp [delay_buffer_forwards, hfw, forwards_skip_draws, forwards_with_log]
        · rw [probability_check_zero _ _ hq] at hr
          simp only [hq, if_false, Bool.false_eq_true] at hr hd
          subst hr hd
          simp [delay_buffer_forwards, hfw, forwards_skip_draws, forwards_with_log]; rfl

/-! ## Draw counts -/

theorem draw_u1_u2_drawn (n : Nat) (r : GRand) :
    r.drawn + 2 ≤ (draw_u1_u2 n r).2.2.drawn := by
  induction n generalizing r with
  | zero => simp [draw_u1_u2, g_rand_double_drawn]
  | succ k ih =>
    simp only [draw_u1_u2]
    split_ifs
    · have := ih (g_rand_double (g_rand_double r).2).2
      simp only [g_rand_double_drawn] at this
      omega
    · simp [g_rand_double_drawn]

theorem g_rand_int_range_drawn (r : GRand) (a b : Int) :
    r.drawn ≤ (g_rand_int_range r a b).2.drawn := by
  unfold g_rand_int_range
  split_ifs
  · simp [g_rand_double_drawn]
  · exact le_refl _

theorem get_random_value_normal_drawn (m : Libm) (r : GRand) (low high : Int)
    (st : NormalDistributionState) :
    r.drawn ≤ (get_random_value_normal m r low high st).2.1.drawn := by
  unfold get_random_value_normal
  simp only
  split_ifs
  · exact le_refl _
  · exact Nat.le_trans (Nat.le_add_right _ 2) (draw_u1_u2_drawn r.tape.length r)

theorem sample_delay_drawn (m : Libm) (priv : GstNetSimPrivate) :
    priv.rand_seed.drawn ≤ (sample_delay m priv).2.1.drawn := by
  unfold sample_delay
  split
  · exact g_rand_int_range_drawn _ _ _
  · exact get_random_value_normal_drawn _ _ _ _ _

theorem delay_buffer_drawn (m : Libm) (sink : Nat → GstFlowReturn) (s : GstNetSim)
    (buf : GstBuffer) :
    s.priv.rand_seed.drawn ≤
      (gst_net_sim_delay_buffer m sink s buf).2.priv.rand_seed.drawn := by
  unfold gst_net_sim_delay_buffer
  by_cases hl : s.priv.main_loop.isSome = true
  · by_cases hp : 0 < s.priv.delay_probability
    · simp only [hl, if_true, probability_check_pos _ _ hp]
      have h1 : (skip_draws 1 s).priv.rand_seed.drawn = s.priv.rand_seed.drawn + 1 :=
        g_rand_skip_drawn 1 _
      have h2 := sample_delay_drawn m (skip_draws 1 s).priv
      by_cases hu : g_rand_peek s.priv.rand_seed 0 < s.priv.delay_probability
      · simp only [hu, decide_True, if_true]
        exact Nat.le_trans (by omega) h2
      · simp only [hu, decide_False, Bool.false_eq_true, if_false]
        omega
    · simp only [hl, if_true, probability_check_zero _ _ hp]
      exact le_refl _
  · simp only [hl]
    exact le_refl _

/-! ## Runs -/

theorem chain_run_append (m : Libm) (sink : Nat → GstFlowReturn) (s : GstNetSim)
    (l1 l2 : List Arrival) :
    chain_run m sink s (l1 ++ l2) = chain_run m sink (chain_run m sink s l1) l2 := by
  induction l1 generalizing s with
  | nil => rfl
  | cons a rest ih => simp only [List.cons_append, chain_run]; exact ih _

theorem chain_run_config (m : Libm) (sink : Nat → GstFlowReturn) (s : GstNetSim)
    (l : List Arrival) : same_config s (chain_run m sink s l) := by
  induction l generalizing s with
  | nil => exact same_config_refl s
  | cons a rest ih => exact same_config_trans (chain_config m sink a.now s a.buf) (ih _)

theorem chain_countdown_unlimited (m : Libm) (sink : Nat → GstFlowReturn)
    (now : Option Nat) (s : GstNetSim) (buf : GstBuffer)
    (hB : s.priv.max_bucket_size = -1) (hd : 0 < s.priv.drop_packets) :
    gst_net_sim_chain m sink now s buf =
      (.GST_FLOW_OK,
        { s with
          priv := { s.priv with drop_packets := s.priv.drop_packets - 1 }
          log := .dropping_left (s.priv.drop_packets - 1) :: s.log }) := by
  have htb := token_bucket_unlimited now s buf hB
  rw [chain_of_countdown m sink now s buf (by rw [htb]) (by rw [htb]; exact hd), htb]

theorem countdown_phase (m : Libm) (sink : Nat → GstFlowReturn) (l : List Arrival)
    (s : GstNetSim) (hB : s.priv.max_bucket_size = -1)
    (hl : l.length ≤ s.priv.drop_packets) :
    chain_run m sink s l =
      { s with
        priv := { s.priv with drop_packets := s.priv.drop_packets - l.length }
        log := countdown_log s.priv.drop_packets l.length ++ s.log } := by
  induction l generalizing s with
  | nil => simp [chain_run, countdown_log]
  | cons a rest ih =>
    simp only [List.length_cons] at hl
    simp only [chain_run]
    rw [chain_countdown_unlimited m sink a.now s a.buf hB (by omega)]
    simp only
    refine (ih _ ?_ ?_).trans ?_
    · exact hB
    · show rest.length ≤ s.priv.drop_packets - 1
      omega
    · simp only [List.length_cons, countdown_log, List.append_assoc, List.singleton_append]
      congr 2
      omega

theorem chain_no_countdown (m : Libm) (sink : Nat → GstFlowReturn) (now : Option Nat)
    (s : GstNetSim) (buf : GstBuffer) (hB : s.priv.max_bucket_size = -1)
    (hd : s.priv.drop_packets = 0) :
    (gst_net_sim_chain m sink now s buf).2.priv.drop_packets = 0 := by
  have htb := token_bucket_unlimited now s buf hB
  unfold gst_net_sim_chain
  rw [htb]
  have hdp : ¬ 0 < s.priv.drop_packets := by omega
  simp only [Bool.not_true, Bool.false_eq_true, if_false, hdp]
  obtain ⟨r1, h1⟩ := probability_check_frame s.priv.drop_probability s
  generalize probability_check s.priv.drop_probability s = pc at h1
  obtain ⟨drop, s2⟩ := pc
  simp only at h1
  cases drop
  · simp only [Bool.false_eq_true, if_false]
    obtain ⟨r2, h2⟩ := probability_check_frame s2.priv.duplicate_probability s2
    generalize probability_check s2.priv.duplicate_probability s2 = pc2 at h2
    obtain ⟨dup, s3⟩ := pc2
    simp only at h2
    cases dup
    · simp only [Bool.false_eq_true, if_false]
      obtain ⟨r, st, pu, ti, lg, h3⟩ := delay_buffer_frame m sink s3 buf
      rw [h3, h2, h1]; exact hd
    · simp only [if_true]
      obtain ⟨r, st, pu, ti, lg, h3⟩ := delay_buffer_frame m sink
        { s3 with log := .duplicating :: s3.log } buf
      obtain ⟨r', st', pu', ti', lg', h4⟩ := delay_buffer_frame m sink
        (gst_net_sim_delay_buffer m sink { s3 with log := .duplicating :: s3.log } buf).2 buf
      rw [h4, h3, h2, h1]; exact hd
  · simp only [if_true]
    rw [h1]; exact hd

theorem chain_run_no_countdown (m : Libm) (sink : Nat → GstFlowReturn) (l : List Arrival)
    (s : GstNetSim) (hB : s.priv.max_bucket_size = -1) (hd : s.priv.drop_packets = 0) :
    (chain_run m sink s l).priv.drop_packets = 0 := by
  induction l generalizing s with
  | nil => exact hd
  | cons a rest ih =>
    simp only [chain_run]
    refine ih _ ?_ (chain_no_countdown m sink a.now s a.buf hB hd)
    obtain ⟨b, pt, dp, r, st, pu, ti, cr, lg, h⟩ := chain_config m sink a.now s a.buf
    rw [h]; exact hB

theorem chain_after_countdown (m : Libm) (sink : Nat → GstFlowReturn) (now : Option Nat)
    (s : GstNetSim) (buf : GstBuffer) (hB : s.priv.max_bucket_size = -1)
    (hd : s.priv.drop_packets = 0) :
    (s.priv.drop_probability = 0 →
      forwards s < forwards (gst_net_sim_chain m sink now s buf).2) ∧
    (0 < s.priv.drop_probability →
      s.priv.rand_seed.drawn <
        (gst_net_sim_chain m sink now s buf).2.priv.rand_seed.drawn) := by
  obtain ⟨-, h2, h3, h4⟩ := chain_decision_aux m sink now s buf true s
    (token_bucket_unlimited now s buf hB) _ rfl _ rfl
  have hdp : ¬ 0 < s.priv.drop_packets := by omega
  unfold spec_decision at h2 h3 h4
  simp only [Bool.true_eq_false, if_false, hdp] at h2 h3 h4
  constructor
  · intro hp
    have hp' : ¬ 0 < s.priv.drop_probability := by rw [hp]; exact lt_irrefl _
    simp only [hp', if_false, false_and] at h2 h3 h4
    by_cases hq : 0 < s.priv.duplicate_probability
    · simp only [hq, if_true] at h3 h4
      by_cases hv : g_rand_peek s.priv.rand_seed 0 < s.priv.duplicate_probability
      · simp only [hv, if_true] at h3
        rw [(h3 trivial).2]; omega
      · simp only [hv, if_false] at h4
        rw [(h4 trivial).2]; omega
    · simp only [hq, if_false] at h4
      rw [(h4 trivial).2]; omega
  · intro hp
    simp only [hp, if_true, true_and] at h2 h3 h4
    by_cases hu : g_rand_peek s.priv.rand_seed 0 < s.priv.drop_probability
    · simp only [hu, if_true] at h2
      rw [(h2 trivial).2.2.2, g_rand_skip_drawn]; omega
    · simp only [hu, if_false] at h3 h4
      by_cases hq : 0 < s.priv.duplicate_probability
      · simp only [hq, if_true] at h3 h4
        by_cases hv : g_rand_peek s.priv.rand_seed 1 < s.priv.duplicate_probability
        · simp only [hv, if_true] at h3
          rw [(h3 trivial).1]
          refine Nat.lt_of_lt_of_le ?_ (delay_buffer_drawn _ _ _ _)
          refine Nat.lt_of_lt_of_le ?_ (delay_buffer_drawn _ _ _ _)
          show s.priv.rand_seed.drawn < (g_rand_skip (1 + 1) s.priv.rand_seed).drawn
          rw [g_rand_skip_drawn]; omega
        · simp only [hv, if_false] at h4
          rw [(h4 trivial).1]
          refine Nat.lt_of_lt_of_le ?_ (delay_buffer_drawn _ _ _ _)
          show s.priv.rand_seed.drawn < (g_rand_skip (1 + 1) s.priv.rand_seed).drawn
          rw [g_rand_skip_drawn]; omega
      · simp only [hq, if_false] at h4
        rw [(h4 trivial).1]
        refine Nat.lt_of_lt_of_le ?_ (delay_buffer_drawn _ _ _ _)
        show s.priv.rand_seed.drawn < (g_rand_skip 1 s.priv.rand_seed).drawn
        rw [g_rand_skip_drawn]; omega

/-! ## The bucket stays within its capacity -/

theorem add_and_clamp_le_cap (bucket_size : Nat) (t M : Int) (h0 : 0 ≤ M)
    (hcap : M * 1000 ≤ 2147483647) :
    (add_and_clamp bucket_size t M : Int) ≤ M * 1000 := by
  have hne : M ≠ -1 := by omega
  unfold add_and_clamp G_MAXINT
  rw [wrap32_of_range (M * 1000) (by omega) (by omega),
    toU64_of_nonneg (M * 1000) (by omega) (by omega)]
  simp only [ne_eq, hne, not_false_eq_true, true_and]
  split_ifs <;> omega

theorem token_bucket_le_cap (now : Option Nat) (s : GstNetSim) (buf : GstBuffer)
    (h0 : 0 ≤ s.priv.max_bucket_size) (hcap : s.priv.max_bucket_size * 1000 ≤ 2147483647) :
    ((gst_net_sim_token_bucket now s buf).2.priv.bucket_size : Int) ≤
      s.priv.max_bucket_size * 1000 := by
  obtain ⟨lg, h⟩ := token_bucket_finite now s buf (by omega)
  have hc := add_and_clamp_le_cap s.priv.bucket_size (gst_net_sim_get_tokens now s).1
    s.priv.max_bucket_size h0 hcap
  rw [h]
  simp only
  split_ifs <;> omega

theorem chain_token_state (m : Libm) (sink : Nat → GstFlowReturn) (now : Option Nat)
    (s : GstNetSim) (buf : GstBuffer) :
    (gst_net_sim_chain m sink now s buf).2.priv.bucket_size =
      (gst_net_sim_token_bucket now s buf).2.priv.bucket_size ∧
    (gst_net_sim_chain m sink now s buf).2.priv.prev_time =
      (gst_net_sim_token_bucket now s buf).2.priv.prev_time ∧
    (gst_net_sim_chain m sink now s buf).2.clock_reads =
      (gst_net_sim_token_bucket now s buf).2.clock_reads := by
  unfold gst_net_sim_chain
  generalize gst_net_sim_token_bucket now s buf = tb
  obtain ⟨adm, s1⟩ := tb
  cases adm
  · exact ⟨rfl, rfl, rfl⟩
  · simp only [Bool.not_true, Bool.false_eq_true, if_false]
    by_cases hdp : 0 < s1.priv.drop_packets
    · rw [if_pos hdp]
      exact ⟨rfl, rfl, rfl⟩
    · rw [if_neg hdp]
      obtain ⟨r1, h1⟩ := probability_check_frame s1.priv.drop_probability s1
      generalize probability_check s1.priv.drop_probability s1 = pc at h1
      obtain ⟨drop, s2⟩ := pc
      simp only at h1
      cases drop
      · simp only [Bool.false_eq_true, if_false]
        obtain ⟨r2, h2⟩ := probability_check_frame s2.priv.duplicate_probability s2
        generalize probability_check s2.priv.duplicate_probability s2 = pc2 at h2
        obtain ⟨dup, s3⟩ := pc2
        simp only at h2
        cases dup
        · simp only [Bool.false_eq_true, if_false]
          obtain ⟨r, st, pu, ti, lg, h3⟩ := delay_buffer_frame m sink s3 buf
          rw [h3, h2, h1]; exact ⟨rfl, rfl, rfl⟩
        · simp only [if_true]
          obtain ⟨r, st, pu, ti, lg, h3⟩ := delay_buffer_frame m sink
            { s3 with log := .duplicating :: s3.log } buf
          obtain ⟨r', st', pu', ti', lg', h4⟩ := delay_buffer_frame m sink
            (gst_net_sim_delay_buffer m sink
              { s3 with log := .duplicating :: s3.log } buf).2 buf
          rw [h4, h3, h2, h1]; exact ⟨rfl, rfl, rfl⟩
      · simp only [if_true]
        rw [h1]; exact ⟨rfl, rfl, rfl⟩

theorem chain_le_cap (m : Libm) (sink : Nat → GstFlowReturn) (now : Option Nat)
    (s : GstNetSim) (buf : GstBuffer) (h0 : 0 ≤ s.priv.max_bucket_size)
    (hcap : s.priv.max_bucket_size * 1000 ≤ 2147483647) :
    (gst_net_sim_chain m sink now s buf).2.priv.max_bucket_size = s.priv.max_bucket_size ∧
    ((gst_net_sim_chain m sink now s buf).2.priv.bucket_size : Int) ≤
      s.priv.max_bucket_size * 1000 := by
  constructor
  · obtain ⟨b, pt, dp, r, st, pu, ti, cr, lg, h⟩ := chain_config m sink now s buf
    rw [h]
  · rw [(chain_token_state m sink now s buf).1]
    exact token_bucket_le_cap now s buf h0 hcap

theorem chain_run_le_cap (m : Libm) (sink : Nat → GstFlowReturn) (l : List Arrival)
    (s : GstNetSim) (h0 : 0 ≤ s.priv.max_bucket_size)
    (hcap : s.priv.max_bucket_size * 1000 ≤ 2147483647)
    (hb : (s.priv.bucket_size : Int) ≤ s.priv.max_bucket_size * 1000) :
    (chain_run m sink s l).priv.max_bucket_size = s.priv.max_bucket_size ∧
    ((chain_run m sink s l).priv.bucket_size : Int) ≤ s.priv.max_bucket_size * 1000 := by
  induction l generalizing s with
  | nil => exact ⟨rfl, hb⟩
  | cons a rest ih =>
    obtain ⟨e1, e2⟩ := chain_le_cap m sink a.now s a.buf h0 hcap
    have := ih (gst_net_sim_chain m sink a.now s a.buf).2 (by rw [e1]; exact h0)
      (by rw [e1]; exact hcap) (by rw [e1]; exact e2)
    rw [e1] at this
    exact this

theorem set_max_bucket_size (s0 : GstNetSim) (M : Int) (h0 : 0 ≤ M)
    (hcap : M * 1000 ≤ 2147483647) :
    (gst_net_sim_set_property s0 (.PROP_MAX_BUCKET_SIZE M)).priv.max_bucket_size = M ∧
    ((gst_net_sim_set_property s0 (.PROP_MAX_BUCKET_SIZE M)).priv.bucket_size : Int) =
      M * 1000 := by
  have hne : M ≠ -1 := by omega
  simp only [gst_net_sim_set_property, ne_eq, hne, not_false_eq_true, if_true, true_and]
  rw [wrap32_of_range _ (by omega) (by omega), toU64_of_nonneg _ (by omega) (by omega)]
  omega

/-! ## Unlimited rate -/

theorem get_tokens_unlimited_rate (now : Option Nat) (s : GstNetSim)
    (hk : s.priv.max_kbps = -1) :
    gst_net_sim_get_tokens now s =
      (wrap32 ((toU64 (wrap32 (s.priv.max_bucket_size * 1000)) + 2 ^ 64
        - s.priv.bucket_size % 2 ^ 64 : Nat) % 2 ^ 64 : Nat), s) := by
  unfold gst_net_sim_get_tokens
  rw [if_pos hk]

theorem add_and_clamp_unlimited_rate (bucket_size : Nat) (M : Int) (h0 : 0 ≤ M)
    (hcap : M * 1000 ≤ 2147483647) :
    (add_and_clamp bucket_size
      (wrap32 ((toU64 (wrap32 (M * 1000)) + 2 ^ 64 - bucket_size % 2 ^ 64 : Nat) % 2 ^ 64 : Nat))
      M : Int) = M * 1000 := by
  have hne : M ≠ -1 := by omega
  unfold add_and_clamp G_MAXINT
  rw [wrap32_of_range (M * 1000) (by omega) (by omega),
    toU64_of_nonneg (M * 1000) (by omega) (by omega)]
  simp only [ne_eq, hne, not_false_eq_true, true_and]
  unfold wrap32 toU64
  split_ifs <;> omega

/-! ## Finite rate -/

theorem get_tokens_finite_rate (now : Option Nat) (s : GstNetSim)
    (hk : s.priv.max_kbps ≠ -1) :
    (gst_net_sim_get_tokens now s).1 =
      wrap32 (gst_util_uint64_scale_int
        (if GST_CLOCK_TIME_IS_VALID s.priv.prev_time = true then
          (if now.getD 0 < s.priv.prev_time then 0 else now.getD 0 - s.priv.prev_time)
         else 0)
        (wrap32 (s.priv.max_kbps * 1000)) GST_SECOND) ∧
    (gst_net_sim_get_tokens now s).2.priv.prev_time =
      ((if GST_CLOCK_TIME_IS_VALID s.priv.prev_time = true then s.priv.prev_time
        else now.getD 0) +
        gst_util_uint64_scale_int GST_SECOND (gst_net_sim_get_tokens now s).1
          (wrap32 (s.priv.max_kbps * 1000))) % 2 ^ 64 := by
  unfold gst_net_sim_get_tokens
  rw [if_neg hk]
  cases now <;> simp only [Option.getD_none, Option.getD_some] <;> split_ifs <;>
    exact ⟨rfl, rfl⟩

/-! ## Finite rate within the 32-bit range -/

theorem get_tokens_in_range (T : Nat) (s : GstNetSim) (hT : T < 2 ^ 64)
    (hk1 : 1 ≤ s.priv.max_kbps) (hk2 : s.priv.max_kbps * 1000 ≤ 2147483647)
    (hv : s.priv.prev_time ≠ GST_CLOCK_TIME_NONE) (hle : s.priv.prev_time ≤ T)
    (hfit : (T - s.priv.prev_time) * (s.priv.max_kbps * 1000).toNat / 1000000000 < 2 ^ 31) :
    (gst_net_sim_get_tokens (some T) s).1 =
      ((T - s.priv.prev_time) * (s.priv.max_kbps * 1000).toNat / 1000000000 : Nat) ∧
    (gst_net_sim_get_tokens (some T) s).2.priv.prev_time =
      s.priv.prev_time +
        ((T - s.priv.prev_time) * (s.priv.max_kbps * 1000).toNat / 1000000000) * 1000000000 /
          (s.priv.max_kbps * 1000).toNat ∧
    (gst_net_sim_get_tokens (some T) s).2.priv.prev_time ≤ T ∧
    (T - (gst_net_sim_get_tokens (some T) s).2.priv.prev_time) *
        (s.priv.max_kbps * 1000).toNat < 1000000000 + (s.priv.max_kbps * 1000).toNat := by
  obtain ⟨e1, e2⟩ := get_tokens_finite_rate (some T) s (by omega)
  have hvalid : GST_CLOCK_TIME_IS_VALID s.priv.prev_time = true := by
    simp [GST_CLOCK_TIME_IS_VALID, hv]
  simp only [Option.getD_some, hvalid, if_true, if_neg (Nat.not_lt.mpr hle)] at e1 e2
  rw [wrap32_of_range (s.priv.max_kbps * 1000) (by omega) (by omega)] at e1 e2
  generalize hR : (s.priv.max_kbps * 1000).toNat = R at *
  generalize he : T - s.priv.prev_time = e at *
  have hRpos : 0 < R := by omega
  have hR2 : R ≤ 2147483647 := by omega
  have hRi : s.priv.max_kbps * 1000 = (R : Int) := by omega
  have hq : gst_util_uint64_scale_int e (s.priv.max_kbps * 1000) GST_SECOND =
      e * R / 1000000000 := by
    unfold gst_util_uint64_scale_int GST_SECOND G_MAXUINT64
    rw [hRi]
    simp only [Int.toNat_ofNat]
    rw [if_neg (by decide), if_neg (by omega), if_neg (by omega)]
  rw [hq] at e1
  rw [wrap32_of_range _ (by omega) (by omega)] at e1
  have htt : gst_util_uint64_scale_int GST_SECOND (gst_net_sim_get_tokens (some T) s).1
      (s.priv.max_kbps * 1000) = (e * R / 1000000000) * 1000000000 / R := by
    unfold gst_util_uint64_scale_int GST_SECOND G_MAXUINT64
    rw [e1, hRi]
    simp only [Int.toNat_ofNat]
    have hle' : (e * R / 1000000000) * 1000000000 / R ≤ e := by
      apply Nat.div_le_of_le_mul
      have := Nat.div_mul_le_self (e * R) 1000000000
      calc e * R / 1000000000 * 1000000000 ≤ e * R := this
        _ = R * e := Nat.mul_comm _ _
    rw [if_neg (by omega), if_neg (by omega), Nat.mul_comm 1000000000, if_neg (by omega)]
  rw [htt] at e2
  have hle' : (e * R / 1000000000) * 1000000000 / R ≤ e := by
    apply Nat.div_le_of_le_mul
    have := Nat.div_mul_le_self (e * R) 1000000000
    calc e * R / 1000000000 * 1000000000 ≤ e * R := this
      _ = R * e := Nat.mul_comm _ _
  have hmod : (s.priv.prev_time + (e * R / 1000000000) * 1000000000 / R) % 2 ^ 64 =
      s.priv.prev_time + (e * R / 1000000000) * 1000000000 / R :=
    Nat.mod_eq_of_lt (by omega)
  rw [hmod] at e2
  refine ⟨e1, e2, by rw [e2]; omega, ?_⟩
  rw [e2]
  have hsub : T - (s.priv.prev_time + (e * R / 1000000000) * 1000000000 / R) =
      e - (e * R / 1000000000) * 1000000000 / R := by omega
  rw [hsub, Nat.sub_mul]
  have h1 := Nat.div_add_mod ((e * R / 1000000000) * 1000000000) R
  have h2 := Nat.mod_lt ((e * R / 1000000000) * 1000000000) hRpos
  have h3 : (e * R / 1000000000) * 1000000000 / R * R =
      R * ((e * R / 1000000000) * 1000000000 / R) := Nat.mul_comm _ _
  omega

/-! ## Bursts: no whole token elapsed at 800 kbps -/

theorem get_tokens_no_elapsed (now : Option Nat) (s : GstNetSim)
    (hk : s.priv.max_kbps = 800) (hp : s.priv.prev_time < 2 ^ 64)
    (hT : now.getD 0 < 2 ^ 64)
    (h : s.priv.prev_time = GST_CLOCK_TIME_NONE ∨ now.getD 0 < s.priv.prev_time + 1250) :
    (gst_net_sim_get_tokens now s).1 = 0 ∧
    (gst_net_sim_get_tokens now s).2.priv.prev_time < 2 ^ 64 ∧
    ((gst_net_sim_get_tokens now s).2.priv.prev_time = GST_CLOCK_TIME_NONE ∨
      now.getD 0 < (gst_net_sim_get_tokens now s).2.priv.prev_time + 1250) := by
  have hw : wrap32 (800 * 1000) = 800000 := by decide
  have h2 : wrap32 ((0 : Nat) : Int) = 0 := by decide
  have h3 : gst_util_uint64_scale_int GST_SECOND 0 800000 = 0 := by decide
  obtain ⟨e1, e2⟩ := get_tokens_finite_rate now s (by rw [hk]; decide)
  have he : gst_util_uint64_scale_int
      (if GST_CLOCK_TIME_IS_VALID s.priv.prev_time = true then
        (if now.getD 0 < s.priv.prev_time then 0 else now.getD 0 - s.priv.prev_time)
        else 0) 800000 GST_SECOND = 0 := by
    have hsmall : (if GST_CLOCK_TIME_IS_VALID s.priv.prev_time = true then
        (if now.getD 0 < s.priv.prev_time then 0 else now.getD 0 - s.priv.prev_time)
        else 0) < 1250 := by
      split_ifs with hv hlt
      · omega
      · rcases h with h | h
        · simp [GST_CLOCK_TIME_IS_VALID, h] at hv
        · omega
      · omega
    generalize (if GST_CLOCK_TIME_IS_VALID s.priv.prev_time = true then
        (if now.getD 0 < s.priv.prev_time then 0 else now.getD 0 - s.priv.prev_time)
        else 0) = e at hsmall
    unfold gst_util_uint64_scale_int GST_SECOND G_MAXUINT64
    simp only [Int.toNat_ofNat]
    rw [if_neg (by decide), if_neg (by decide)]
    have h8 : (800000 : Int).toNat = 800000 := by decide
    have h0 : e * 800000 / 1000000000 = 0 := by omega
    rw [h8, h0]
    decide
  rw [hk, hw, he, h2] at e1
  rw [e1, hk, hw, h3, Nat.add_zero] at e2
  refine ⟨e1, ?_, ?_⟩
  · rw [e2]; exact Nat.mod_lt _ (by norm_num)
  · rw [e2]
    split_ifs with hv
    · rw [Nat.mod_eq_of_lt hp]
      rcases h with h | h
      · simp [GST_CLOCK_TIME_IS_VALID, h] at hv
      · exact Or.inr h
    · rw [Nat.mod_eq_of_lt hT]
      exact Or.inr (by omega)

theorem admitted_bits_spec_burst (budget : Nat) (l : List Nat) :
    admitted_bits (spec_burst budget l) l ≤ budget := by
  induction l generalizing budget with
  | nil => simp [spec_burst, admitted_bits]
  | cons b rest ih =>
    simp only [spec_burst]
    split_ifs with hb
    · have := ih (budget - b)
      simp only [admitted_bits, if_true]
      omega
    · have := ih budget
      simp only [admitted_bits, Bool.false_eq_true, if_false]
      omega

theorem burst_no_elapsed (now : Option Nat) (bufs : List GstBuffer) (s : GstNetSim)
    (hk : s.priv.max_kbps = 800) (hM : s.priv.max_bucket_size = 100)
    (hb : s.priv.bucket_size ≤ 100000) (hp : s.priv.prev_time < 2 ^ 64)
    (hT : now.getD 0 < 2 ^ 64)
    (h : s.priv.prev_time = GST_CLOCK_TIME_NONE ∨ now.getD 0 < s.priv.prev_time + 1250) :
    (token_bucket_burst now s bufs).1 =
      spec_burst s.priv.bucket_size (bufs.map get_buffer_size_in_bits) := by
  induction bufs generalizing s with
  | nil => rfl
  | cons buf rest ih =>
    obtain ⟨lg, htb⟩ := token_bucket_finite now s buf (by rw [hM]; decide)
    obtain ⟨e1, e2, e3⟩ := get_tokens_no_elapsed now s hk hp hT h
    have hac : add_and_clamp s.priv.bucket_size 0 100 = s.priv.bucket_size := by
      have := add_and_clamp_in_range s.priv.bucket_size 0 100 (by decide) (by decide)
        (by omega) (by decide) (by decide)
      omega
    rw [e1, hM, hac] at htb
    simp only [token_bucket_burst, List.map_cons, spec_burst]
    rw [htb]
    simp only
    by_cases hfit : get_buffer_size_in_bits buf ≤ s.priv.bucket_size
    · rw [if_pos hfit, if_neg (by omega), decide_eq_true hfit]
      congr 1
      refine (ih _ ?_ ?_ ?_ ?_ ?_).trans rfl
      · exact hk
      · exact hM
      · show s.priv.bucket_size - get_buffer_size_in_bits buf ≤ 100000
        omega
      · exact e2
      · exact e3
    · rw [if_neg hfit, if_pos (by omega), decide_eq_false hfit]
      congr 1
      refine (ih _ ?_ ?_ ?_ ?_ ?_).trans rfl
      · exact hk
      · exact hM
      · exact hb
      · exact e2
      · exact e3

theorem burst_after_idle (T : Nat) (bufs : List GstBuffer) (s : GstNetSim)
    (hk : s.priv.max_kbps = 800) (hM : s.priv.max_bucket_size = 100)
    (hb : s.priv.bucket_size = 100000) (hT : T < 2 ^ 64)
    (hv : s.priv.prev_time ≠ GST_CLOCK_TIME_NONE) (hle : s.priv.prev_time ≤ T)
    (hfit : (T - s.priv.prev_time) * 800000 / 1000000000 < 2 ^ 31) :
    (token_bucket_burst (some T) s bufs).1 =
      spec_burst 100000 (bufs.map get_buffer_size_in_bits) := by
  cases bufs with
  | nil => rfl
  | cons buf rest =>
    have hR : (s.priv.max_kbps * 1000).toNat = 800000 := by rw [hk]; decide
    obtain ⟨lg, htb⟩ := token_bucket_finite (some T) s buf (by rw [hM]; decide)
    obtain ⟨e1, e2, e3, -⟩ := get_tokens_in_range T s hT (by rw [hk]; decide)
      (by rw [hk]; decide) hv hle (by rw [hR]; exact hfit)
    rw [hR] at e1 e2
    have hac : add_and_clamp 100000
        (((T - s.priv.prev_time) * 800000 / 1000000000 : Nat) : Int) 100 = 100000 := by
      have := add_and_clamp_in_range 100000
        (((T - s.priv.prev_time) * 800000 / 1000000000 : Nat) : Int) 100 (by decide)
        (by decide) (by decide) (by omega) (by omega)
      omega
    rw [e1, hM, hb, hac] at htb
    have hnear : T < (gst_net_sim_get_tokens (some T) s).2.priv.prev_time + 1250 := by
      rw [e2]; omega
    simp only [token_bucket_burst, List.map_cons, spec_burst]
    rw [htb]
    simp only
    by_cases hfits : get_buffer_size_in_bits buf ≤ 100000
    · rw [if_pos hfits, if_neg (by omega), decide_eq_true hfits]
      congr 1
      refine (burst_no_elapsed (some T) rest _ ?_ ?_ ?_ ?_ ?_ ?_).trans rfl
      · exact hk
      · exact hM
      · show 100000 - get_buffer_size_in_bits buf ≤ 100000
        omega
      · show (gst_net_sim_get_tokens (some T) s).2.priv.prev_time < 2 ^ 64
        omega
      · exact hT
      · exact Or.inr hnear
    · rw [if_neg hfits, if_pos (by omega), decide_eq_false hfits]
      congr 1
      refine (burst_no_elapsed (some T) rest _ ?_ ?_ ?_ ?_ ?_ ?_).trans rfl
      · exact hk
      · exact hM
      · exact le_refl _
      · show (gst_net_sim_get_tokens (some T) s).2.priv.prev_time < 2 ^ 64
        omega
      · exact hT
      · exact Or.inr hnear

/-! ## The delay-and-forward step -/

theorem g_rand_double_range (r : GRand) :
    0 ≤ (g_rand_double r).1 ∧ (g_rand_double r).1 < 1 := by
  unfold g_rand_double
  split
  · exact ⟨UnitDouble.half.nonneg, UnitDouble.half.lt_one⟩
  · rename_i u t _
    exact ⟨u.nonneg, u.lt_one⟩

theorem g_rand_peek_range (r : GRand) (k : Nat) :
    0 ≤ g_rand_peek r k ∧ g_rand_peek r k < 1 :=
  g_rand_double_range _

theorem probability_check_one (s : GstNetSim) :
    probability_check 1 s = (true, skip_draws 1 s) := by
  rw [probability_check_pos 1 s one_pos]
  simp [(g_rand_peek_range s.priv.rand_seed 0).2]

theorem clamp_eq_max (d : Int) : (if d < 0 then 0 else d) = max 0 d := by
  split_ifs <;> omega

theorem delay_buffer_no_loop (m : Libm) (sink : Nat → GstFlowReturn) (s : GstNetSim)
    (buf : GstBuffer) (h : s.priv.main_loop = none) :
    gst_net_sim_delay_buffer m sink s buf =
      (sink s.pushed.length, { s with pushed := buf :: s.pushed }) := by
  simp [gst_net_sim_delay_buffer, h]

theorem delay_buffer_no_delay (m : Libm) (sink : Nat → GstFlowReturn) (s : GstNetSim)
    (buf : GstBuffer) (h : ¬ 0 < s.priv.delay_probability) :
    gst_net_sim_delay_buffer m sink s buf =
      (sink s.pushed.length, { s with pushed := buf :: s.pushed }) := by
  unfold gst_net_sim_delay_buffer
  rw [probability_check_zero _ _ h]
  simp

theorem delay_buffer_miss (m : Libm) (sink : Nat → GstFlowReturn) (s : GstNetSim)
    (buf : GstBuffer) (hl : s.priv.main_loop.isSome = true)
    (hp : 0 < s.priv.delay_probability)
    (hu : ¬ g_rand_peek s.priv.rand_seed 0 < s.priv.delay_probability) :
    gst_net_sim_delay_buffer m sink s buf =
      (sink s.pushed.length, { skip_draws 1 s with pushed := buf :: s.pushed }) := by
  unfold gst_net_sim_delay_buffer
  rw [probability_check_pos _ _ hp]
  simp only [hl, if_true, hu, decide_False, Bool.false_eq_true, if_false]
  rfl

theorem delay_buffer_hit (m : Libm) (sink : Nat → GstFlowReturn) (s : GstNetSim)
    (buf : GstBuffer) (hl : s.priv.main_loop.isSome = true)
    (hp : 0 < s.priv.delay_probability)
    (hu : g_rand_peek s.priv.rand_seed 0 < s.priv.delay_probability) :
    gst_net_sim_delay_buffer m sink s buf =
      (.GST_FLOW_OK,
        { skip_draws 1 s with
          priv := { (skip_draws 1 s).priv with
            rand_seed := (sample_delay m (skip_draws 1 s).priv).2.1
            delay_state := (sample_delay m (skip_draws 1 s).priv).2.2 }
          timers := (max 0 (sample_delay m (skip_draws 1 s).priv).1, buf) :: s.timers
          log := .delaying (max 0 (sample_delay m (skip_draws 1 s).priv).1) :: s.log }) := by
  unfold gst_net_sim_delay_buffer
  rw [probability_check_pos _ _ hp]
  simp only [hl, if_true, hu, decide_True, clamp_eq_max]
  rfl

/-! ## The chain function after admission -/

theorem delay_buffer_twice_sync (m : Libm) (sink : Nat → GstFlowReturn) (x : GstNetSim)
    (buf : GstBuffer) (h : x.priv.delay_probability = 0) :
    (gst_net_sim_delay_buffer m sink (gst_net_sim_delay_buffer m sink x buf).2 buf).1 =
      sink (x.pushed.length + 1) ∧
    (gst_net_sim_delay_buffer m sink (gst_net_sim_delay_buffer m sink x buf).2 buf).2.pushed =
      buf :: buf :: x.pushed ∧
    (gst_net_sim_delay_buffer m sink (gst_net_sim_delay_buffer m sink x buf).2 buf).2.timers =
      x.timers := by
  have h0 : ¬ 0 < x.priv.delay_probability := by rw [h]; exact lt_irrefl _
  rw [delay_buffer_no_delay m sink x buf h0]
  simp only
  rw [delay_buffer_no_delay m sink { x with pushed := buf :: x.pushed } buf h0]
  exact ⟨rfl, rfl, rfl⟩

theorem chain_duplicate_sync (m : Libm) (sink : Nat → GstFlowReturn) (now : Option Nat)
    (s : GstNetSim) (buf : GstBuffer)
    (hadm : (gst_net_sim_token_bucket now s buf).1 = true)
    (hdp : s.priv.drop_packets = 0)
    (hdecl : ¬ (0 < s.priv.drop_probability ∧
      g_rand_peek s.priv.rand_seed 0 < s.priv.drop_probability))
    (hdup : s.priv.duplicate_probability = 1) (hdel : s.priv.delay_probability = 0) :
    (gst_net_sim_chain m sink now s buf).1 = sink (s.pushed.length + 1) ∧
    (gst_net_sim_chain m sink now s buf).2.pushed = buf :: buf :: s.pushed ∧
    (gst_net_sim_chain m sink now s buf).2.timers = s.timers := by
  obtain ⟨b, pt, cr, lg, hfr⟩ := token_bucket_frame now s buf
  generalize htb : gst_net_sim_token_bucket now s buf = tb at hadm hfr
  obtain ⟨adm, s1⟩ := tb
  simp only at hadm hfr
  subst hadm
  obtain ⟨-, -, h3, -⟩ := chain_decision_aux m sink now s buf true s1 htb _ rfl _ rfl
  have e1 : s1.priv.drop_packets = 0 := by rw [hfr]; exact hdp
  have e2 : s1.priv.drop_probability = s.priv.drop_probability := by rw [hfr]
  have e3 : s1.priv.duplicate_probability = 1 := by rw [hfr]; exact hdup
  have e4 : s1.priv.rand_seed = s.priv.rand_seed := by rw [hfr]
  have e5 : s1.priv.delay_probability = 0 := by rw [hfr]; exact hdel
  have e6 : s1.pushed = s.pushed := by rw [hfr]
  have e7 : s1.timers = s.timers := by rw [hfr]
  unfold spec_decision at h3
  rw [e1, e2, e3, e4] at h3
  have hlt : ∀ k, g_rand_peek s.priv.rand_seed k < 1 := fun k => (g_rand_peek_range _ k).2
  simp only [Bool.true_eq_false, if_false, lt_irrefl, hdecl, one_pos, if_true, hlt] at h3
  have h3' := (h3 trivial).1
  rw [h3']
  rw [← e6, ← e7]
  exact delay_buffer_twice_sync m sink _ buf e5

theorem delay_buffer_outcome (m : Libm) (sink : Nat → GstFlowReturn) (x : GstNetSim)
    (buf : GstBuffer) :
    ((gst_net_sim_delay_buffer m sink x buf).2.pushed = x.pushed ∧
      (gst_net_sim_delay_buffer m sink x buf).2.timers.length = x.timers.length + 1 ∧
      (gst_net_sim_delay_buffer m sink x buf).1 = .GST_FLOW_OK) ∨
    ((gst_net_sim_delay_buffer m sink x buf).2.pushed = buf :: x.pushed ∧
      (gst_net_sim_delay_buffer m sink x buf).2.timers = x.timers ∧
      (gst_net_sim_delay_buffer m sink x buf).1 = sink x.pushed.length) := by
  by_cases hl : x.priv.main_loop.isSome = true
  · by_cases hp : 0 < x.priv.delay_probability
    · by_cases hu : g_rand_peek x.priv.rand_seed 0 < x.priv.delay_probability
      · rw [delay_buffer_hit m sink x buf hl hp hu]
        exact Or.inl ⟨rfl, rfl, rfl⟩
      · rw [delay_buffer_miss m sink x buf hl hp hu]
        exact Or.inr ⟨rfl, rfl, rfl⟩
    · rw [delay_buffer_no_delay m sink x buf hp]
      exact Or.inr ⟨rfl, rfl, rfl⟩
  · have hn : x.priv.main_loop = none := by
      cases h : x.priv.main_loop with
      | none => rfl
      | some v => rw [h] at hl; exact absurd rfl hl
    rw [delay_buffer_no_loop m sink x buf hn]
    exact Or.inr ⟨rfl, rfl, rfl⟩

theorem token_bucket_admitted (now : Option Nat) (s : GstNetSim) (buf : GstBuffer)
    (hadm : (gst_net_sim_token_bucket now s buf).1 = true) :
    ∃ s1, gst_net_sim_token_bucket now s buf = (true, s1) ∧
      s1.priv.drop_packets = s.priv.drop_packets ∧
      s1.priv.drop_probability = s.priv.drop_probability ∧
      s1.priv.duplicate_probability = s.priv.duplicate_probability ∧
      s1.priv.delay_probability = s.priv.delay_probability ∧
      s1.priv.rand_seed = s.priv.rand_seed ∧
      s1.pushed = s.pushed ∧ s1.timers = s.timers := by
  obtain ⟨b, pt, cr, lg, hfr⟩ := token_bucket_frame now s buf
  generalize htb : gst_net_sim_token_bucket now s buf = tb at hadm hfr
  obtain ⟨adm, s1⟩ := tb
  simp only at hadm hfr
  subst hadm
  refine ⟨s1, rfl, ?_, ?_, ?_, ?_, ?_, ?_, ?_⟩ <;> rw [hfr]

theorem g_rand_int_range_bounds (r : GRand) (a b : Int) (h : a < b) :
    a ≤ (g_rand_int_range r a b).1 ∧ (g_rand_int_range r a b).1 < b := by
  unfold g_rand_int_range
  rw [if_pos (by omega)]
  obtain ⟨hu0, hu1⟩ := g_rand_double_range r
  have hD : (0 : ℚ) < ((b - a : Int) : ℚ) := by
    have : (0 : Int) < b - a := by omega
    exact_mod_cast this
  have hf0 : 0 ≤ ⌊(g_rand_double r).1 * ((b - a : Int) : ℚ)⌋ :=
    Int.floor_nonneg.mpr (mul_nonneg hu0 (le_of_lt hD))
  have hf1 : ⌊(g_rand_double r).1 * ((b - a : Int) : ℚ)⌋ < b - a := by
    rw [Int.floor_lt]
    calc (g_rand_double r).1 * ((b - a : Int) : ℚ) < 1 * ((b - a : Int) : ℚ) :=
          mul_lt_mul_of_pos_right hu1 hD
      _ = ((b - a : Int) : ℚ) := one_mul _
  constructor
  · show a ≤ a + ⌊(g_rand_double r).1 * ((b - a : Int) : ℚ)⌋
    omega
  · show a + ⌊(g_rand_double r).1 * ((b - a : Int) : ℚ)⌋ < b
    omega

theorem delay_buffer_timers (m : Libm) (sink : Nat → GstFlowReturn) (s : GstNetSim)
    (buf : GstBuffer) :
    (gst_net_sim_delay_buffer m sink s buf).2.timers = s.timers ∨
    (gst_net_sim_delay_buffer m sink s buf).2.timers =
      (max 0 (sample_delay m (skip_draws 1 s).priv).1, buf) :: s.timers := by
  by_cases hl : s.priv.main_loop.isSome = true
  · by_cases hp : 0 < s.priv.delay_probability
    · by_cases hu : g_rand_peek s.priv.rand_seed 0 < s.priv.delay_probability
      · rw [delay_buffer_hit m sink s buf hl hp hu]
        exact Or.inr rfl
      · rw [delay_buffer_miss m sink s buf hl hp hu]
        exact Or.inl rfl
    · rw [delay_buffer_no_delay m sink s buf hp]
      exact Or.inl rfl
  · have hn : s.priv.main_loop = none := by
      cases h : s.priv.main_loop with
      | none => rfl
      | some v => rw [h] at hl; exact absurd rfl hl
    rw [delay_buffer_no_loop m sink s buf hn]
    exact Or.inl rfl

/-! ## The Box-Muller pair -/

theorem g_rand_double_tape (r : GRand) : (g_rand_double r).2.tape = r.tape.tail := by
  unfold g_rand_double
  split <;> rename_i h <;> rw [h] <;> rfl

theorem g_rand_double_exhausted (r : GRand) (h : r.tape = []) :
    (g_rand_double r).1 = 1 / 2 := by
  unfold g_rand_double
  rw [h]
  rfl

theorem draw_u1_u2_accepts (n : Nat) (r : GRand) (h : r.tape.length ≤ 2 * n) :
    DBL_EPSILON < (draw_u1_u2 n r).1 := by
  induction n generalizing r with
  | zero =>
    have hnil : r.tape = [] := List.length_eq_zero.mp (by omega)
    simp only [draw_u1_u2]
    rw [g_rand_double_exhausted r hnil]
    unfold DBL_EPSILON
    norm_num
  | succ k ih =>
    simp only [draw_u1_u2]
    split_ifs with hu
    · apply ih
      rw [g_rand_double_tape, g_rand_double_tape]
      simp only [List.length_tail]
      omega
    · exact lt_of_not_le hu

theorem normal_call_odd (m : Libm) (r : GRand) (low high : Int)
    (st : NormalDistributionState) (hg : st.generate = false) :
    get_random_value_normal m r low high st =
      (wrap32 (c_round
          (m.sqrt (-2 * m.log (draw_u1_u2 r.tape.length r).1) *
              m.cos (2 * m.G_PI * (draw_u1_u2 r.tape.length r).2.1) *
            ((wrap32 (high - low) : ℚ) / (2 * (196 / 100))) +
            (wrap32 (high + low) : ℚ) / 2)),
        (draw_u1_u2 r.tape.length r).2.2,
        { generate := true
          z0 := m.sqrt (-2 * m.log (draw_u1_u2 r.tape.length r).1) *
            m.cos (2 * m.G_PI * (draw_u1_u2 r.tape.length r).2.1)
          z1 := m.sqrt (-2 * m.log (draw_u1_u2 r.tape.length r).1) *
            m.sin (2 * m.G_PI * (draw_u1_u2 r.tape.length r).2.1) }) := by
  unfold get_random_value_normal
  simp [hg]

theorem normal_call_even (m : Libm) (r : GRand) (low high : Int)
    (st : NormalDistributionState) (hg : st.generate = true) :
    get_random_value_normal m r low high st =
      (wrap32 (c_round (st.z1 * ((wrap32 (high - low) : ℚ) / (2 * (196 / 100))) +
          (wrap32 (high + low) : ℚ) / 2)),
        r, { st with generate := false }) := by
  unfold get_random_value_normal
  simp [hg]

theorem normal_calls_even_count (m : Libm) (low high : Int) (k : Nat) (r : GRand)
    (st : NormalDistributionState) (hg : st.generate = false) :
    (normal_calls m low high (2 * k) (r, st)).2.generate = false := by
  induction k with
  | zero => exact hg
  | succ j ih =>
    have h2 : 2 * (j + 1) = (2 * j + 1) + 1 := by omega
    rw [h2]
    simp only [normal_calls]
    rw [normal_call_odd m _ low high _ ih]
    simp only
    rw [normal_call_even m _ low high _ rfl]

/-! ## Finite rate: no elapsed time -/

theorem scale_zero_elapsed (R : Int) (h1 : 0 < R) :
    gst_util_uint64_scale_int 0 R GST_SECOND = 0 ∧
    gst_util_uint64_scale_int GST_SECOND 0 R = 0 := by
  unfold gst_util_uint64_scale_int GST_SECOND G_MAXUINT64
  constructor
  · rw [if_neg (by decide), if_neg (by omega)]
    simp
  · rw [if_neg (by omega), if_neg (by decide)]
    simp

theorem get_tokens_first_call (now : Option Nat) (s : GstNetSim)
    (hk1 : 1 ≤ s.priv.max_kbps) (hk2 : s.priv.max_kbps * 1000 ≤ 2147483647)
    (hv : s.priv.prev_time = GST_CLOCK_TIME_NONE) (hT : now.getD 0 < 2 ^ 64) :
    (gst_net_sim_get_tokens now s).1 = 0 ∧
    (gst_net_sim_get_tokens now s).2.priv.prev_time = now.getD 0 := by
  obtain ⟨e1, e2⟩ := get_tokens_finite_rate now s (by omega)
  have hinv : ¬ (GST_CLOCK_TIME_IS_VALID s.priv.prev_time = true) := by
    simp [GST_CLOCK_TIME_IS_VALID, hv]
  obtain ⟨z1, z2⟩ := scale_zero_elapsed (s.priv.max_kbps * 1000) (by omega)
  have h2 : wrap32 ((0 : Nat) : Int) = 0 := by decide
  rw [if_neg hinv, wrap32_of_range (s.priv.max_kbps * 1000) (by omega) (by omega), z1, h2] at e1
  rw [e1, if_neg hinv, wrap32_of_range (s.priv.max_kbps * 1000) (by omega) (by omega), z2,
    Nat.add_zero, Nat.mod_eq_of_lt hT] at e2
  exact ⟨e1, e2⟩

theorem get_tokens_clock_backwards (now : Option Nat) (s : GstNetSim)
    (hk1 : 1 ≤ s.priv.max_kbps) (hk2 : s.priv.max_kbps * 1000 ≤ 2147483647)
    (hv : s.priv.prev_time ≠ GST_CLOCK_TIME_NONE) (hp : s.priv.prev_time < 2 ^ 64)
    (hlt : now.getD 0 < s.priv.prev_time) :
    (gst_net_sim_get_tokens now s).1 = 0 ∧
    (gst_net_sim_get_tokens now s).2.priv.prev_time = s.priv.prev_time := by
  obtain ⟨e1, e2⟩ := get_tokens_finite_rate now s (by omega)
  have hval : GST_CLOCK_TIME_IS_VALID s.priv.prev_time = true := by
    simp [GST_CLOCK_TIME_IS_VALID, hv]
  obtain ⟨z1, z2⟩ := scale_zero_elapsed (s.priv.max_kbps * 1000) (by omega)
  have h2 : wrap32 ((0 : Nat) : Int) = 0 := by decide
  rw [if_pos hval, if_pos hlt,
    wrap32_of_range (s.priv.max_kbps * 1000) (by omega) (by omega), z1, h2] at e1
  rw [e1, if_pos hval, wrap32_of_range (s.priv.max_kbps * 1000) (by omega) (by omega), z2,
    Nat.add_zero, Nat.mod_eq_of_lt hp] at e2
  exact ⟨e1, e2⟩

/-! ## Pass-through and the draws of the delay step -/

theorem chain_pass_through (m : Libm) (sink : Nat → GstFlowReturn) (now : Option Nat)
    (s : GstNetSim) (buf : GstBuffer) (hB : s.priv.max_bucket_size = -1)
    (hdp : s.priv.drop_packets = 0) (hdrop : s.priv.drop_probability = 0)
    (hdup : s.priv.duplicate_probability = 0) (hdel : s.priv.delay_probability = 0) :
    gst_net_sim_chain m sink now s buf =
      (sink s.pushed.length, { s with pushed := buf :: s.pushed }) := by
  have h0 : ¬ (0 : ℚ) < 0 := lt_irrefl _
  unfold gst_net_sim_chain
  rw [token_bucket_unlimited now s buf hB]
  simp only [Bool.not_true, Bool.false_eq_true, if_false, hdp, lt_irrefl]
  rw [hdrop, probability_check_zero 0 s h0]
  simp only [Bool.false_eq_true, if_false]
  rw [hdup, probability_check_zero 0 s h0]
  simp only [Bool.false_eq_true, if_false]
  exact delay_buffer_no_delay m sink s buf (by rw [hdel]; exact h0)

theorem delay_buffer_rand (m : Libm) (sink : Nat → GstFlowReturn) (s : GstNetSim)
    (buf : GstBuffer) :
    (s.priv.main_loop = none →
      (gst_net_sim_delay_buffer m sink s buf).2.priv.rand_seed = s.priv.rand_seed) ∧
    (¬ 0 < s.priv.delay_probability →
      (gst_net_sim_delay_buffer m sink s buf).2.priv.rand_seed = s.priv.rand_seed) ∧
    (s.priv.main_loop.isSome = true → 0 < s.priv.delay_probability →
      ¬ g_rand_peek s.priv.rand_seed 0 < s.priv.delay_probability →
      (gst_net_sim_delay_buffer m sink s buf).2.priv.rand_seed =
        g_rand_skip 1 s.priv.rand_seed) ∧
    (s.priv.main_loop.isSome = true → 0 < s.priv.delay_probability →
      g_rand_peek s.priv.rand_seed 0 < s.priv.delay_probability →
      (gst_net_sim_delay_buffer m sink s buf).2.priv.rand_seed =
        (sample_delay m (skip_draws 1 s).priv).2.1) := by
  refine ⟨fun h => ?_, fun h => ?_, fun hl hp hu => ?_, fun hl hp hu => ?_⟩
  · rw [delay_buffer_no_loop m sink s buf h]
  · rw [delay_buffer_no_delay m sink s buf h]
  · rw [delay_buffer_miss m sink s buf hl hp hu]; rfl
  · rw [delay_buffer_hit m sink s buf hl hp hu]

/-! ## Token conservation -/

theorem add_and_clamp_le_sum (bucket_size : Nat) (t M : Int) (ht0 : 0 ≤ t)
    (ht1 : t ≤ 2147483647) :
    (add_and_clamp bucket_size t M : Int) ≤ bucket_size + t := by
  unfold add_and_clamp G_MAXINT
  rw [toU64_of_nonneg t ht0 (by omega)]
  simp only
  split_ifs <;> omega

theorem token_bucket_step_conserves (now : Option Nat) (s : GstNetSim) (buf : GstBuffer)
    (hB : s.priv.max_bucket_size ≠ -1) (ht : 0 ≤ (gst_net_sim_get_tokens now s).1) :
    (((if (gst_net_sim_token_bucket now s buf).1 then get_buffer_size_in_bits buf else 0 :
        Nat) : Int) + (gst_net_sim_token_bucket now s buf).2.priv.bucket_size ≤
      s.priv.bucket_size + (gst_net_sim_get_tokens now s).1) ∧
    (gst_net_sim_token_bucket now s buf).2.priv.max_bucket_size ≠ -1 := by
  obtain ⟨lg, h⟩ := token_bucket_finite now s buf hB
  have hc := add_and_clamp_le_sum s.priv.bucket_size (gst_net_sim_get_tokens now s).1
    s.priv.max_bucket_size ht (get_tokens_range now s).2
  rw [h]
  refine ⟨?_, hB⟩
  simp only [decide_eq_true_eq]
  split_ifs <;> omega

theorem token_bucket_charge_exact (now : Option Nat) (s : GstNetSim) (buf : GstBuffer)
    (hB : s.priv.max_bucket_size ≠ -1)
    (hadm : (gst_net_sim_token_bucket now s buf).1 = true) :
    get_buffer_size_in_bits buf ≤
      add_and_clamp s.priv.bucket_size (gst_net_sim_get_tokens now s).1
        s.priv.max_bucket_size ∧
    (gst_net_sim_token_bucket now s buf).2.priv.bucket_size + get_buffer_size_in_bits buf =
      add_and_clamp s.priv.bucket_size (gst_net_sim_get_tokens now s).1
        s.priv.max_bucket_size := by
  obtain ⟨lg, h⟩ := token_bucket_finite now s buf hB
  rw [h] at hadm ⊢
  simp only [decide_eq_true_eq] at hadm
  refine ⟨hadm, ?_⟩
  simp only
  rw [if_neg (by omega)]
  omega

theorem token_bucket_run_conserves (l : List Arrival) (s : GstNetSim)
    (hB : s.priv.max_bucket_size ≠ -1) (hnn : tokens_nonneg s l) :
    ((token_bucket_run s l).1 : Int) + (token_bucket_run s l).2.2.priv.bucket_size ≤
      s.priv.bucket_size + (token_bucket_run s l).2.1 := by
  induction l generalizing s with
  | nil => simp [token_bucket_run]
  | cons a rest ih =>
    obtain ⟨h0, hrest⟩ := hnn
    obtain ⟨hstep, hB'⟩ := token_bucket_step_conserves a.now s a.buf hB h0
    have hi := ih (gst_net_sim_token_bucket a.now s a.buf).2 hB' hrest
    have e1 : (token_bucket_run s (a :: rest)).1 =
        (if (gst_net_sim_token_bucket a.now s a.buf).1 then get_buffer_size_in_bits a.buf
          else 0) + (token_bucket_run (gst_net_sim_token_bucket a.now s a.buf).2 rest).1 :=
      rfl
    have e2 : (token_bucket_run s (a :: rest)).2.1 =
        (gst_net_sim_get_tokens a.now s).1 +
          (token_bucket_run (gst_net_sim_token_bucket a.now s a.buf).2 rest).2.1 := rfl
    have e3 : (token_bucket_run s (a :: rest)).2.2 =
        (token_bucket_run (gst_net_sim_token_bucket a.now s a.buf).2 rest).2.2 := rfl
    rw [e1, e2, e3, Nat.cast_add]
    omega

/-! ## Total tokens of a run, within the 32-bit range -/

theorem slack_step (p0 p1 pn k R n : Nat) (S : Int) (hR : 0 < R)
    (hp1 : p1 = p0 + k * 1000000000 / R) (i1 : p1 ≤ pn)
    (i2 : S * 1000000000 ≤ ((pn : Int) - p1) * R + n * ((R : Int) - 1)) :
    p0 ≤ pn ∧
    ((k : Int) + S) * 1000000000 ≤
      ((pn : Int) - p0) * R + ((n + 1 : Nat) : Int) * ((R : Int) - 1) := by
  have h1 := Nat.div_add_mod (k * 1000000000) R
  have h2 := Nat.mod_lt (k * 1000000000) hR
  have h3 : k * 1000000000 + 1 ≤ (k * 1000000000 / R) * R + R := by
    have h4 : R * (k * 1000000000 / R) = (k * 1000000000 / R) * R := Nat.mul_comm _ _
    omega
  have h5 : (k : Int) * 1000000000 + 1 ≤ ((k * 1000000000 / R : Nat) : Int) * R + R := by
    exact_mod_cast h3
  subst hp1
  refine ⟨le_trans (Nat.le_add_right _ _) i1, ?_⟩
  push_cast at i2 h5 ⊢
  nlinarith [i2, h5]

theorem get_tokens_run_slack (l : List Nat) (s : GstNetSim)
    (hk1 : 1 ≤ s.priv.max_kbps) (hk2 : s.priv.max_kbps * 1000 ≤ 2147483647)
    (hv : s.priv.prev_time ≠ GST_CLOCK_TIME_NONE) (hr : readings_in_range s l) :
    s.priv.prev_time ≤ (get_tokens_run s (l.map some)).2.priv.prev_time ∧
    (get_tokens_run s (l.map some)).1 * 1000000000 ≤
      (((get_tokens_run s (l.map some)).2.priv.prev_time : Int) - s.priv.prev_time) *
          (((s.priv.max_kbps * 1000).toNat : Nat) : Int) +
        l.length * ((((s.priv.max_kbps * 1000).toNat : Nat) : Int) - 1) := by
  induction l generalizing s with
  | nil => simp [get_tokens_run]
  | cons t rest ih =>
    obtain ⟨ht, hle, hfit, hrest⟩ := hr
    unfold GST_CLOCK_TIME_NONE at ht
    have ht' : t < 2 ^ 64 := by omega
    obtain ⟨e1, e2, e3, _⟩ := get_tokens_in_range t s ht' hk1 hk2 hv hle hfit
    obtain ⟨pt, cr, lg, hfr⟩ := get_tokens_frame (some t) s
    have hkk : (gst_net_sim_get_tokens (some t) s).2.priv.max_kbps = s.priv.max_kbps := by
      rw [hfr]
    have hv1 : (gst_net_sim_get_tokens (some t) s).2.priv.prev_time ≠ GST_CLOCK_TIME_NONE := by
      unfold GST_CLOCK_TIME_NONE
      omega
    obtain ⟨i1, i2⟩ := ih (gst_net_sim_get_tokens (some t) s).2 (by rw [hkk]; exact hk1)
      (by rw [hkk]; exact hk2) hv1 hrest
    have r1 : (get_tokens_run s ((t :: rest).map some)).1 =
        (gst_net_sim_get_tokens (some t) s).1 +
          (get_tokens_run (gst_net_sim_get_tokens (some t) s).2 (rest.map some)).1 := rfl
    have r2 : (get_tokens_run s ((t :: rest).map some)).2 =
        (get_tokens_run (gst_net_sim_get_tokens (some t) s).2 (rest.map some)).2 := rfl
    rw [r1, r2, e1]
    rw [hkk] at i2
    have hRpos : 0 < (s.priv.max_kbps * 1000).toNat := by omega
    exact slack_step _ _ _ _ _ _ _ hRpos e2 i1 i2

/-! ## Refill after an idle period, within the 32-bit range -/

theorem bucket_refilled_in_range (T : Nat) (s : GstNetSim) (hT : T < 2 ^ 64)
    (hk1 : 1 ≤ s.priv.max_kbps) (hk2 : s.priv.max_kbps * 1000 ≤ 2147483647)
    (hv : s.priv.prev_time ≠ GST_CLOCK_TIME_NONE) (hle : s.priv.prev_time ≤ T)
    (hfit : (T - s.priv.prev_time) * (s.priv.max_kbps * 1000).toNat / 1000000000 < 2 ^ 31)
    (hM0 : 0 ≤ s.priv.max_bucket_size)
    (hM1 : s.priv.max_bucket_size * 1000 ≤ 2147483647)
    (hb : (s.priv.bucket_size : Int) ≤ s.priv.max_bucket_size * 1000)
    (hfull : s.priv.max_bucket_size * 1000 - s.priv.bucket_size ≤
      ((T - s.priv.prev_time) * (s.priv.max_kbps * 1000).toNat / 1000000000 : Nat)) :
    (add_and_clamp s.priv.bucket_size (gst_net_sim_get_tokens (some T) s).1
      s.priv.max_bucket_size : Int) = s.priv.max_bucket_size * 1000 := by
  obtain ⟨e1, _⟩ := get_tokens_in_range T s hT hk1 hk2 hv hle hfit
  rw [e1, add_and_clamp_in_range _ _ _ hM0 hM1 hb (by omega) (by omega)]
  omega

/-! ## The scheduler -/

theorem init_scheduler_consistent (r : GRand) :
    scheduler_consistent (gst_net_sim_init r).priv := by
  simp [scheduler_consistent, gst_net_sim_init]

theorem activatemode_inactive_deactivate (c : ActivateCall) (priv : GstNetSimPrivate)
    (e : SchedulerCalls) (hc : c.active = false) (hl : priv.main_loop = none) :
    gst_net_sim_src_activatemode c priv e = .ok (false, priv, e) := by
  simp [gst_net_sim_src_activatemode, hc, hl]

theorem activatemode_running_deactivate (c : ActivateCall) (priv : GstNetSimPrivate)
    (e : SchedulerCalls) (hc : c.active = false) (hl : priv.main_loop ≠ none)
    (hr : priv.running = true) :
    gst_net_sim_src_activatemode c priv e =
      .ok (c.stop_task, { priv with main_loop := none, running := false },
        { e with
          quit_sources := e.quit_sources + 1
          loop_unrefs := e.loop_unrefs + 1
          cond_waits := e.cond_waits + 1
          task_pauses := e.task_pauses + 1
          task_stops := e.task_stops + 1 }) := by
  cases hm : priv.main_loop with
  | none => exact absurd hm hl
  | some l => simp [gst_net_sim_src_activatemode, hc, hm, hr, gst_net_sim_loop_end]

theorem activatemode_inactive_activate (c : ActivateCall) (priv : GstNetSimPrivate)
    (e : SchedulerCalls) (hc : c.active = true) (hl : priv.main_loop = none)
    (hr : priv.running = false) (hst : c.start_task = true) :
    gst_net_sim_src_activatemode c priv e =
      .ok (true, { priv with main_loop := some e.loops_created, running := true },
        { e with
          loops_created := e.loops_created + 1
          task_starts := e.task_starts + 1
          cond_waits := e.cond_waits + 1 }) := by
  simp [gst_net_sim_src_activatemode, hc, hl, hr, hst, gst_net_sim_loop_begin]

theorem activatemode_running_activate (c : ActivateCall) (priv : GstNetSimPrivate)
    (e : SchedulerCalls) (hc : c.active = true) (hl : priv.main_loop ≠ none) :
    gst_net_sim_src_activatemode c priv e = .ok (false, priv, e) := by
  cases hm : priv.main_loop with
  | none => exact absurd hm hl
  | some l => simp [gst_net_sim_src_activatemode, hc, hm]

theorem activatemode_step (c : ActivateCall) (priv : GstNetSimPrivate)
    (e : SchedulerCalls) (hinv : scheduler_consistent priv)
    (hs : c.active = true → c.start_task = true) :
    ∃ r priv1 e1, gst_net_sim_src_activatemode c priv e = .ok (r, priv1, e1) ∧
      scheduler_consistent priv1 := by
  unfold scheduler_consistent at hinv
  by_cases hm : priv.main_loop = none
  · have hr : priv.running = false := by
      cases hrun : priv.running with
      | false => rfl
      | true => exact absurd hm (hinv.mpr hrun)
    cases ha : c.active with
    | false =>
      exact ⟨_, _, _, activatemode_inactive_deactivate c priv e ha hm,
        by simp [scheduler_consistent, hm, hr]⟩
    | true =>
      exact ⟨_, _, _, activatemode_inactive_activate c priv e ha hm hr (hs ha),
        by simp [scheduler_consistent]⟩
  · have hr : priv.running = true := hinv.mp hm
    cases ha : c.active with
    | false =>
      exact ⟨_, _, _, activatemode_running_deactivate c priv e ha hm hr,
        by simp [scheduler_consistent]⟩
    | true =>
      exact ⟨_, _, _, activatemode_running_activate c priv e ha hm,
        by simp [scheduler_consistent, hm, hr]⟩

theorem activatemode_run_consistent (calls : List ActivateCall) (priv : GstNetSimPrivate)
    (e : SchedulerCalls) (hinv : scheduler_consistent priv)
    (hs : ∀ c ∈ calls, c.active = true → c.start_task = true) :
    ∃ rs priv1 e1, activatemode_run priv e calls = .ok (rs, priv1, e1) ∧
      rs.length = calls.length ∧ scheduler_consistent priv1 := by
  induction calls generalizing priv e with
  | nil => exact ⟨[], priv, e, rfl, rfl, hinv⟩
  | cons c rest ih =>
    obtain ⟨r, p1, e1, h1, hinv1⟩ :=
      activatemode_step c priv e hinv (hs c (List.mem_cons_self _ _))
    obtain ⟨rs, p2, e2, h2, hlen, hinv2⟩ :=
      ih p1 e1 hinv1 (fun d hd => hs d (List.mem_cons_of_mem _ hd))
    exact ⟨r :: rs, p2, e2, by simp [activatemode_run, h1, h2], by simp [hlen], hinv2⟩

/-! ## Bursts at one clock reading, within the 32-bit range -/

/-- At `max_kbps = 800` with `max-bucket-size` set through the property to 100,
the bucket starts at 100000 bits, and for a burst whose arrivals all see the same
clock reading, a buffer is admitted exactly when its bit length is at most
100000 minus the bits of the buffers admitted before it, and the admitted buffers
total at most 100000 bits, provided the burst starts with `prev_time` still
`GST_CLOCK_TIME_NONE` (as after construction), or not before the reading, or so
that the time since `prev_time` is worth fewer than `2^31` tokens (the range of
the `gint` that holds them). -/
theorem burst_in_range (now : Option Nat) (s0 : GstNetSim)
    (bufs : List GstBuffer) (hk : s0.priv.max_kbps = 800)
    (hp : s0.priv.prev_time < 2 ^ 64) (hT : now.getD 0 < 2 ^ 64)
    (h : s0.priv.prev_time = GST_CLOCK_TIME_NONE ∨ now.getD 0 ≤ s0.priv.prev_time ∨
      (now.getD 0 - s0.priv.prev_time) * 800000 / 1000000000 < 2 ^ 31) :
    (gst_net_sim_set_property s0 (.PROP_MAX_BUCKET_SIZE 100)).priv.bucket_size = 100000 ∧
    (token_bucket_burst now (gst_net_sim_set_property s0 (.PROP_MAX_BUCKET_SIZE 100))
      bufs).1 = spec_burst 100000 (bufs.map get_buffer_size_in_bits) ∧
    admitted_bits
      (token_bucket_burst now (gst_net_sim_set_property s0 (.PROP_MAX_BUCKET_SIZE 100))
        bufs).1 (bufs.map get_buffer_size_in_bits) ≤ 100000 := by
  have hbs : (gst_net_sim_set_property s0 (.PROP_MAX_BUCKET_SIZE 100)).priv.bucket_size =
      100000 := by rfl
  have hpt : (gst_net_sim_set_property s0 (.PROP_MAX_BUCKET_SIZE 100)).priv.prev_time =
      s0.priv.prev_time := rfl
  have hrun : (token_bucket_burst now
      (gst_net_sim_set_property s0 (.PROP_MAX_BUCKET_SIZE 100)) bufs).1 =
      spec_burst 100000 (bufs.map get_buffer_size_in_bits) := by
    by_cases hnear : s0.priv.prev_time = GST_CLOCK_TIME_NONE ∨
        now.getD 0 < s0.priv.prev_time + 1250
    · have := burst_no_elapsed now bufs
        (gst_net_sim_set_property s0 (.PROP_MAX_BUCKET_SIZE 100)) hk rfl (by rw [hbs])
        (by rw [hpt]; exact hp) hT (by rw [hpt]; exact hnear)
      rw [hbs] at this
      exact this
    · have hv : s0.priv.prev_time ≠ GST_CLOCK_TIME_NONE := fun e => hnear (Or.inl e)
      have hfar : s0.priv.prev_time + 1250 ≤ now.getD 0 := by
        have : ¬ now.getD 0 < s0.priv.prev_time + 1250 := fun e => hnear (Or.inr e)
        omega
      cases now with
      | none => simp only [Option.getD_none] at hfar; omega
      | some T =>
        simp only [Option.getD_some] at hfar hT h
        have hfit : (T - s0.priv.prev_time) * 800000 / 1000000000 < 2 ^ 31 := by
          rcases h with h | h | h
          · exact absurd h hv
          · omega
          · exact h
        exact burst_after_idle T bufs
          (gst_net_sim_set_property s0 (.PROP_MAX_BUCKET_SIZE 100)) hk rfl hbs hT
          (by rw [hpt]; exact hv) (by rw [hpt]; omega) (by rw [hpt]; exact hfit)
  refine ⟨hbs, hrun, ?_⟩
  rw [hrun]
  exact admitted_bits_spec_burst _ _

/-- An instance: on a fresh element at 800 kbps with a 100 Kb bucket,
of three buffers of 50000, 60000 and 50000 bits arriving at clock reading 7 the
first and the third are admitted and the second is rejected. -/
theorem burst_in_range_instance :
    (gst_net_sim_set_property sample_element (.PROP_MAX_KBPS 800)).priv.max_kbps = 800 ∧
    (token_bucket_burst (some 7)
      (gst_net_sim_set_property
        (gst_net_sim_set_property sample_element (.PROP_MAX_KBPS 800))
        (.PROP_MAX_BUCKET_SIZE 100))
      [⟨0, 6250⟩, ⟨1, 7500⟩, ⟨2, 6250⟩]).1 = [true, false, true] := by
  refine ⟨by rfl, ?_⟩
  rw [(burst_in_range (some 7)
    (gst_net_sim_set_property sample_element (.PROP_MAX_KBPS 800))
    [⟨0, 6250⟩, ⟨1, 7500⟩, ⟨2, 6250⟩] (by rfl) (by decide) (by decide)
    (Or.inl (by rfl))).2.1]
  decide

/-! ## Claims -/

/-- Claim C2: for a finite bucket `max_bucket_size = M` with `0 <= M` and
`M * 1000 <= G_MAXINT`, a bucket content of at most `M * 1000`, a token amount
`t >= 0` returned by `gst_net_sim_get_tokens` and a buffer of `b` bits,
`gst_net_sim_token_bucket` works on `c = min (M * 1000) (bucket_size + t)`: it
rejects exactly when `b > c` and then leaves `bucket_size = c`; otherwise it
admits and leaves `bucket_size = c - b`. -/
theorem token_bucket_add_clamp_charge (now : Option Nat) (s : GstNetSim)
    (buf : GstBuffer) (M t : Int) (hM : s.priv.max_bucket_size = M) (h0 : 0 ≤ M)
    (hcap : M * 1000 ≤ G_MAXINT) (hb : (s.priv.bucket_size : Int) ≤ M * 1000)
    (ht : (gst_net_sim_get_tokens now s).1 = t) (ht0 : 0 ≤ t) :
    ((gst_net_sim_token_bucket now s buf).1 = false ↔
      min (M * 1000) (s.priv.bucket_size + t) < get_buffer_size_in_bits buf) ∧
    (min (M * 1000) (s.priv.bucket_size + t) < get_buffer_size_in_bits buf →
      ((gst_net_sim_token_bucket now s buf).2.priv.bucket_size : Int) =
        min (M * 1000) (s.priv.bucket_size + t)) ∧
    ((get_buffer_size_in_bits buf : Int) ≤ min (M * 1000) (s.priv.bucket_size + t) →
      (gst_net_sim_token_bucket now s buf).1 = true ∧
      ((gst_net_sim_token_bucket now s buf).2.priv.bucket_size : Int) =
        min (M * 1000) (s.priv.bucket_size + t) - get_buffer_size_in_bits buf) := by
  have hne : s.priv.max_bucket_size ≠ -1 := by omega
  have hr := get_tokens_range now s
  unfold G_MAXINT at hcap
  obtain ⟨lg, h⟩ := token_bucket_finite now s buf hne
  have hc := add_and_clamp_in_range s.priv.bucket_size t M h0 hcap hb ht0 (by omega)
  rw [h, ht, hM]
  simp only [decide_eq_false_iff_not, decide_eq_true_eq]
  refine ⟨by omega, fun hlt => ?_, fun hle => ⟨by omega, ?_⟩⟩
  · rw [if_pos (by omega)]; exact hc
  · rw [if_neg (by omega)]; omega

/-- Instance of claim C2: an element with a 1 Kb bucket holding 1000 bits and
an unlimited rate admits a 10 byte buffer and is left with 920 bits. -/
theorem token_bucket_add_clamp_charge_witness :
    (gst_net_sim_token_bucket none (sample_bucket_element 1 0) ⟨0, 10⟩).1 = true ∧
    (((gst_net_sim_token_bucket none (sample_bucket_element 1 0)
      ⟨0, 10⟩).2.priv.bucket_size : Nat) : Int) = 920 := by
  have h := token_bucket_add_clamp_charge none (sample_bucket_element 1 0) ⟨0, 10⟩ 1 0
    (by rfl) (by decide) (by decide) (by decide) (by rfl) (by decide)
  have hbits : get_buffer_size_in_bits ⟨0, 10⟩ = 80 := by rfl
  have hbs : (sample_bucket_element 1 0).priv.bucket_size = 1000 := by rfl
  rw [hbits, hbs] at h
  exact ⟨h.2.2 (by norm_num)|>.1, by rw [(h.2.2 (by norm_num)).2]; norm_num⟩

/-- Claim C4: with `max_bucket_size = -1`, `gst_net_sim_token_bucket` admits
every buffer for every `max_kbps` and clock, and returns the element exactly as
it was: no clock read, `bucket_size` and `prev_time` unchanged. -/
theorem token_bucket_unlimited_is_noop (now : Option Nat) (s : GstNetSim)
    (buf : GstBuffer) (h : s.priv.max_bucket_size = -1) :
    gst_net_sim_token_bucket now s buf = (true, s) ∧
    (gst_net_sim_token_bucket now s buf).2.clock_reads = s.clock_reads ∧
    (gst_net_sim_token_bucket now s buf).2.priv.bucket_size = s.priv.bucket_size ∧
    (gst_net_sim_token_bucket now s buf).2.priv.prev_time = s.priv.prev_time := by
  rw [token_bucket_unlimited now s buf h]
  exact ⟨rfl, rfl, rfl, rfl⟩

/-- Instance of claim C4: a freshly constructed element with a finite rate of
800 kbps admits a 4 GiB buffer without any change to the element. -/
theorem token_bucket_unlimited_is_noop_witness :
    (gst_net_sim_set_property sample_element (.PROP_MAX_KBPS 800)).priv.max_bucket_size = -1 ∧
    (gst_net_sim_token_bucket (some 5)
      (gst_net_sim_set_property sample_element (.PROP_MAX_KBPS 800)) ⟨0, 4294967296⟩).1 = true :=
  ⟨by rfl,
    by rw [(token_bucket_unlimited_is_noop (some 5)
      (gst_net_sim_set_property sample_element (.PROP_MAX_KBPS 800)) ⟨0, 4294967296⟩
      (by rfl)).1]⟩

/-- Claim C1: `gst_net_sim_chain` decides in the order admission, countdown
drop, probabilistic drop, duplication, normal path.  With `d` the outcome and
draw count that the specification's order gives for the admission result, the
countdown, the probabilities and the upcoming random outputs, the code yields
exactly that outcome: rejected (nothing drawn, element as the token bucket left
it), dropped (nothing forwarded, exactly `d.2` values drawn), forwarded twice or
forwarded once (the delay-and-forward step run twice or once on the element
after exactly `d.2` draws by the decision stages). -/
theorem chain_decision_order (m : Libm) (sink : Nat → GstFlowReturn) (now : Option Nat)
    (s : GstNetSim) (buf : GstBuffer) :
    let tb := gst_net_sim_token_bucket now s buf
    let d := spec_decision tb.1 tb.2.priv.drop_packets tb.2.priv.drop_probability
      tb.2.priv.duplicate_probability (g_rand_peek tb.2.priv.rand_seed)
    let r := gst_net_sim_chain m sink now s buf
    (d.1 = .rejected →
      r = (.GST_FLOW_OK, tb.2) ∧ d.2 = 0 ∧ forwards r.2 = forwards s ∧
      r.2.priv.rand_seed = s.priv.rand_seed) ∧
    (d.1 = .dropped →
      r.1 = .GST_FLOW_OK ∧ r.2.pushed = s.pushed ∧ r.2.timers = s.timers ∧
      r.2.priv.rand_seed = g_rand_skip d.2 s.priv.rand_seed) ∧
    (d.1 = .forwarded_twice →
      r = gst_net_sim_delay_buffer m sink
        (gst_net_sim_delay_buffer m sink
          { skip_draws d.2 tb.2 with log := .duplicating :: tb.2.log } buf).2 buf ∧
      forwards r.2 = forwards s + 2) ∧
    (d.1 = .forwarded_once →
      r = gst_net_sim_delay_buffer m sink (skip_draws d.2 tb.2) buf ∧
      forwards r.2 = forwards s + 1) :=
  chain_decision_aux m sink now s buf _ _ rfl _ rfl _ rfl

/-- Claim C5 as stated fails: an element with a bucket of capacity 0 and
`drop_packets = 3` rejects a one byte buffer at the token bucket, and
`drop_packets` is still 3 (not 2) when `gst_net_sim_chain` returns. -/
theorem countdown_untouched_on_rejection :
    0 < (sample_bucket_element 0 3).priv.drop_packets ∧
    (gst_net_sim_chain sample_libm sample_sink none (sample_bucket_element 0 3)
      ⟨0, 1⟩).2.priv.drop_packets ≠ (sample_bucket_element 0 3).priv.drop_packets - 1 := by
  decide

/-- Claim C5, amended: if `drop_packets = N > 0` when `gst_net_sim_chain` is
called and the token bucket admits the buffer, the buffer is not forwarded
(nothing pushed, nothing scheduled, nothing drawn), the call returns
`GST_FLOW_OK` and `drop_packets` becomes `N - 1`; if the token bucket rejects
the buffer it is not forwarded either and `drop_packets` stays `N`. -/
theorem countdown_drop_after_admission (m : Libm) (sink : Nat → GstFlowReturn)
    (now : Option Nat) (s : GstNetSim) (buf : GstBuffer) (N : Nat)
    (hN : s.priv.drop_packets = N) (hpos : 0 < N) :
    ((gst_net_sim_token_bucket now s buf).1 = true →
      (gst_net_sim_chain m sink now s buf).1 = .GST_FLOW_OK ∧
      (gst_net_sim_chain m sink now s buf).2.pushed = s.pushed ∧
      (gst_net_sim_chain m sink now s buf).2.timers = s.timers ∧
      (gst_net_sim_chain m sink now s buf).2.priv.rand_seed = s.priv.rand_seed ∧
      (gst_net_sim_chain m sink now s buf).2.priv.drop_packets = N - 1) ∧
    ((gst_net_sim_token_bucket now s buf).1 = false →
      (gst_net_sim_chain m sink now s buf).1 = .GST_FLOW_OK ∧
      (gst_net_sim_chain m sink now s buf).2.pushed = s.pushed ∧
      (gst_net_sim_chain m sink now s buf).2.timers = s.timers ∧
      (gst_net_sim_chain m sink now s buf).2.priv.drop_packets = N) := by
  obtain ⟨b, pt, cr, lg, hfr⟩ := token_bucket_frame now s buf
  have hdp : (gst_net_sim_token_bucket now s buf).2.priv.drop_packets = N := by
    rw [hfr]; exact hN
  constructor
  · intro hadm
    rw [chain_of_countdown m sink now s buf hadm (by omega), hdp, hfr]
    exact ⟨rfl, rfl, rfl, rfl, rfl⟩
  · intro hrej
    rw [chain_of_rejected m sink now s buf hrej]
    refine ⟨rfl, ?_, ?_, ?_⟩
    · rw [hfr]
    · rw [hfr]
    · exact hdp

/-- Instance of amended claim C5: a freshly constructed element with an unlimited
bucket and `drop_packets = 3` drops a one byte buffer and counts down to 2. -/
theorem countdown_drop_after_admission_witness :
    (sample_bucket_element (-1) 3).priv.drop_packets = 3 ∧
    (gst_net_sim_chain sample_libm sample_sink none (sample_bucket_element (-1) 3)
      ⟨0, 1⟩).2.priv.drop_packets = 3 - 1 :=
  ⟨by rfl,
    ((countdown_drop_after_admission sample_libm sample_sink none
      (sample_bucket_element (-1) 3) ⟨0, 1⟩ 3 (by rfl) (by decide)).1 (by rfl)).2.2.2.2⟩

/-- Claim C10: when the token bucket rejects a buffer, `gst_net_sim_chain`
returns `GST_FLOW_OK` with the element as the token bucket left it: nothing is
pushed, nothing is scheduled, nothing is drawn from the random source and
`drop_packets` is unchanged. -/
theorem chain_rejected_is_silent (m : Libm) (sink : Nat → GstFlowReturn)
    (now : Option Nat) (s : GstNetSim) (buf : GstBuffer)
    (h : (gst_net_sim_token_bucket now s buf).1 = false) :
    gst_net_sim_chain m sink now s buf =
      (.GST_FLOW_OK, (gst_net_sim_token_bucket now s buf).2) ∧
    (gst_net_sim_chain m sink now s buf).2.pushed = s.pushed ∧
    (gst_net_sim_chain m sink now s buf).2.timers = s.timers ∧
    (gst_net_sim_chain m sink now s buf).2.priv.rand_seed = s.priv.rand_seed ∧
    (gst_net_sim_chain m sink now s buf).2.priv.drop_packets = s.priv.drop_packets := by
  obtain ⟨b, pt, cr, lg, hfr⟩ := token_bucket_frame now s buf
  rw [chain_of_rejected m sink now s buf h]
  refine ⟨rfl, ?_, ?_, ?_, ?_⟩ <;> rw [hfr]

/-- Instance of claim C10: an element with a bucket of capacity 0 rejects a one
byte buffer, and the chain function returns `GST_FLOW_OK`. -/
theorem chain_rejected_is_silent_witness :
    (gst_net_sim_token_bucket none (sample_bucket_element 0 3) ⟨0, 1⟩).1 = false ∧
    (gst_net_sim_chain sample_libm sample_sink none (sample_bucket_element 0 3)
      ⟨0, 1⟩).1 = .GST_FLOW_OK :=
  ⟨by rfl, by
    rw [(chain_rejected_is_silent sample_libm sample_sink none
      (sample_bucket_element 0 3) ⟨0, 1⟩ (by rfl)).1]⟩

/-- Claim C6: with an unlimited bucket and `drop_packets = N`, a run of `m`
arrivals drops exactly the first `k = min N m` by the countdown: after them the
element differs from the start only in `drop_packets = N - k` and in `k`
`Dropping packet (%d left)` messages (so nothing was drawn, pushed or
scheduled); `drop_packets` is still `N - k` at the end of the run; every later
arrival finds `drop_packets = 0`, is forwarded when `drop_probability = 0` and
draws from the random source when `drop_probability > 0`. -/
theorem countdown_run (m : Libm) (sink : Nat → GstFlowReturn) (s : GstNetSim)
    (arrivals : List Arrival) (hB : s.priv.max_bucket_size = -1) :
    chain_run m sink s (arrivals.take (min s.priv.drop_packets arrivals.length)) =
      { s with
        priv := { s.priv with
          drop_packets := s.priv.drop_packets - min s.priv.drop_packets arrivals.length }
        log := countdown_log s.priv.drop_packets
          (min s.priv.drop_packets arrivals.length) ++ s.log } ∧
    (chain_run m sink s arrivals).priv.drop_packets =
      s.priv.drop_packets - min s.priv.drop_packets arrivals.length ∧
    ∀ j, min s.priv.drop_packets arrivals.length ≤ j → j < arrivals.length →
      (chain_run m sink s (arrivals.take j)).priv.drop_packets = 0 ∧
      (s.priv.drop_probability = 0 →
        forwards (chain_run m sink s (arrivals.take j)) <
          forwards (chain_run m sink s (arrivals.take (j + 1)))) ∧
      (0 < s.priv.drop_probability →
        (chain_run m sink s (arrivals.take j)).priv.rand_seed.drawn <
          (chain_run m sink s (arrivals.take (j + 1))).priv.rand_seed.drawn) := by
  have hlen : (arrivals.take (min s.priv.drop_packets arrivals.length)).length =
      min s.priv.drop_packets arrivals.length := by
    rw [List.length_take]; omega
  have hmid := countdown_phase m sink
    (arrivals.take (min s.priv.drop_packets arrivals.length)) s hB (by rw [hlen]; omega)
  rw [hlen] at hmid
  refine ⟨hmid, ?_, ?_⟩
  · conv_lhs => rw [← List.take_append_drop (min s.priv.drop_packets arrivals.length) arrivals]
    rw [chain_run_append, hmid]
    by_cases hle : s.priv.drop_packets ≤ arrivals.length
    · refine (chain_run_no_countdown m sink _ _ ?_ ?_).trans ?_
      · exact hB
      · show s.priv.drop_packets - _ = 0
        omega
      · omega
    · have hk : min s.priv.drop_packets arrivals.length = arrivals.length := by omega
      rw [hk, List.drop_length]
      rfl
  · intro j hkj hj
    have hk : min s.priv.drop_packets arrivals.length = s.priv.drop_packets := by omega
    have hbefore : chain_run m sink s (arrivals.take j) =
        chain_run m sink (chain_run m sink s
          (arrivals.take (min s.priv.drop_packets arrivals.length)))
          ((arrivals.drop (min s.priv.drop_packets arrivals.length)).take
            (j - min s.priv.drop_packets arrivals.length)) := by
      rw [← chain_run_append, ← List.take_add]
      congr 2
      omega
    have hd0 : (chain_run m sink s (arrivals.take j)).priv.drop_packets = 0 := by
      rw [hbefore, hmid]
      refine chain_run_no_countdown m sink _ _ ?_ ?_
      · exact hB
      · show s.priv.drop_packets - _ = 0
        omega
    obtain ⟨b, pt, dp, r, st, pu, ti, cr, lg, hcfg⟩ :=
      chain_run_config m sink s (arrivals.take j)
    have hB' : (chain_run m sink s (arrivals.take j)).priv.max_bucket_size = -1 := by
      rw [hcfg]; exact hB
    have hP' : (chain_run m sink s (arrivals.take j)).priv.drop_probability =
        s.priv.drop_probability := by
      rw [hcfg]
    have hafter : chain_run m sink s (arrivals.take (j + 1)) =
        (gst_net_sim_chain m sink (arrivals.get ⟨j, hj⟩).now
          (chain_run m sink s (arrivals.take j)) (arrivals.get ⟨j, hj⟩).buf).2 := by
      rw [← List.take_concat_get arrivals j hj, List.concat_eq_append, chain_run_append]
      rfl
    have hstep := chain_after_countdown m sink (arrivals.get ⟨j, hj⟩).now
      (chain_run m sink s (arrivals.take j)) (arrivals.get ⟨j, hj⟩).buf hB' hd0
    rw [hP'] at hstep
    rw [hafter]
    exact ⟨hd0, hstep.1, hstep.2⟩

/-- Instance of claim C6: with an unlimited bucket and `drop_packets = 2`, a
run of three arrivals ends with `drop_packets = 0`. -/
theorem countdown_run_witness :
    (sample_bucket_element (-1) 2).priv.max_bucket_size = -1 ∧
    (chain_run sample_libm sample_sink (sample_bucket_element (-1) 2)
      [⟨⟨0, 1⟩, none⟩, ⟨⟨1, 1⟩, none⟩, ⟨⟨2, 1⟩, none⟩]).priv.drop_packets = 0 :=
  ⟨by rfl,
    (countdown_run sample_libm sample_sink (sample_bucket_element (-1) 2)
      [⟨⟨0, 1⟩, none⟩, ⟨⟨1, 1⟩, none⟩, ⟨⟨2, 1⟩, none⟩] (by rfl)).2.1⟩

/-- Claim C9: for a finite `max_bucket_size = M` with `0 <= M` and
`M * 1000 <= G_MAXINT`, `bucket_size` lies in `[0, M * 1000]`: it is `M * 1000`
right after `gst_net_sim_set_property` sets `max-bucket-size` to `M`, every
`gst_net_sim_chain` call on an element with that `max_bucket_size` leaves it at
most `M * 1000` (for every clock reading, rate and earlier token state, hence
whatever `gst_net_sim_get_tokens` returns), and so does every run of calls. -/
theorem bucket_within_capacity (M : Int) (h0 : 0 ≤ M) (hcap : M * 1000 ≤ G_MAXINT) :
    (∀ s0 : GstNetSim,
      (gst_net_sim_set_property s0 (.PROP_MAX_BUCKET_SIZE M)).priv.max_bucket_size = M ∧
      ((gst_net_sim_set_property s0 (.PROP_MAX_BUCKET_SIZE M)).priv.bucket_size : Int) =
        M * 1000) ∧
    (∀ (m : Libm) (sink : Nat → GstFlowReturn) (now : Option Nat) (s : GstNetSim)
        (buf : GstBuffer), s.priv.max_bucket_size = M →
      (gst_net_sim_chain m sink now s buf).2.priv.max_bucket_size = M ∧
      (0 : Int) ≤ (gst_net_sim_chain m sink now s buf).2.priv.bucket_size ∧
      ((gst_net_sim_chain m sink now s buf).2.priv.bucket_size : Int) ≤ M * 1000) ∧
    (∀ (m : Libm) (sink : Nat → GstFlowReturn) (s0 : GstNetSim) (arrivals : List Arrival),
      (chain_run m sink (gst_net_sim_set_property s0 (.PROP_MAX_BUCKET_SIZE M))
        arrivals).priv.max_bucket_size = M ∧
      ((chain_run m sink (gst_net_sim_set_property s0 (.PROP_MAX_BUCKET_SIZE M))
        arrivals).priv.bucket_size : Int) ≤ M * 1000) := by
  unfold G_MAXINT at hcap
  refine ⟨fun s0 => set_max_bucket_size s0 M h0 hcap, ?_, ?_⟩
  · intro m sink now s buf hM
    subst hM
    obtain ⟨e1, e2⟩ := chain_le_cap m sink now s buf h0 hcap
    exact ⟨e1, Int.ofNat_nonneg _, e2⟩
  · intro m sink s0 arrivals
    obtain ⟨e1, e2⟩ := set_max_bucket_size s0 M h0 hcap
    have := chain_run_le_cap m sink arrivals
      (gst_net_sim_set_property s0 (.PROP_MAX_BUCKET_SIZE M))
      (by rw [e1]; exact h0) (by rw [e1]; exact hcap) (by rw [e1, e2])
    rw [e1] at this
    exact this

/-- Instance of claim C9: after `max-bucket-size` is set to 100 on a fresh
element the bucket holds 100000 bits. -/
theorem bucket_within_capacity_witness :
    ((gst_net_sim_set_property sample_element
      (.PROP_MAX_BUCKET_SIZE 100)).priv.bucket_size : Int) = 100 * 1000 :=
  ((bucket_within_capacity 100 (by decide) (by decide)).1 sample_element).2

/-- Claim C8: with `max_kbps = -1` and a finite bucket of capacity
`C = max_bucket_size * 1000 <= G_MAXINT`, `gst_net_sim_get_tokens` returns
`C - bucket_size` (for a bucket content within the capacity), and whatever the
bucket held before, `gst_net_sim_token_bucket` decides on a full bucket: a
buffer of `b` bits is admitted exactly when `b <= C`, leaving `C - b`, and
rejected otherwise, leaving `C`. -/
theorem unlimited_rate_starts_full (now : Option Nat) (s : GstNetSim) (buf : GstBuffer)
    (M : Int) (hk : s.priv.max_kbps = -1) (hM : s.priv.max_bucket_size = M) (h0 : 0 ≤ M)
    (hcap : M * 1000 ≤ G_MAXINT) :
    ((s.priv.bucket_size : Int) ≤ M * 1000 →
      (gst_net_sim_get_tokens now s).1 = M * 1000 - s.priv.bucket_size) ∧
    ((gst_net_sim_token_bucket now s buf).1 = true ↔
      (get_buffer_size_in_bits buf : Int) ≤ M * 1000) ∧
    ((get_buffer_size_in_bits buf : Int) ≤ M * 1000 →
      ((gst_net_sim_token_bucket now s buf).2.priv.bucket_size : Int) =
        M * 1000 - get_buffer_size_in_bits buf) ∧
    (M * 1000 < get_buffer_size_in_bits buf →
      ((gst_net_sim_token_bucket now s buf).2.priv.bucket_size : Int) = M * 1000) := by
  unfold G_MAXINT at hcap
  have hne : s.priv.max_bucket_size ≠ -1 := by omega
  obtain ⟨lg, h⟩ := token_bucket_finite now s buf hne
  have hg := get_tokens_unlimited_rate now s hk
  have hc := add_and_clamp_unlimited_rate s.priv.bucket_size M h0 hcap
  rw [hM] at hg h
  rw [hg] at h
  simp only at h
  rw [h, hg]
  simp only [decide_eq_true_eq]
  refine ⟨fun hb => ?_, by omega, fun hle => ?_, fun hlt => ?_⟩
  · rw [wrap32_of_range (M * 1000) (by omega) (by omega),
      toU64_of_nonneg (M * 1000) (by omega) (by omega)]
    unfold wrap32
    omega
  · rw [if_neg (by omega)]; omega
  · rw [if_pos (by omega)]; exact hc

/-- Instance of claim C8: an unlimited-rate element with a 1 Kb bucket admits a
10 byte buffer and is left with 920 bits. -/
theorem unlimited_rate_starts_full_witness :
    (sample_bucket_element 1 0).priv.max_kbps = -1 ∧
    (((gst_net_sim_token_bucket none (sample_bucket_element 1 0)
      ⟨0, 10⟩).2.priv.bucket_size : Nat) : Int) =
        1 * 1000 - (get_buffer_size_in_bits ⟨0, 10⟩ : Nat) :=
  ⟨by rfl,
    (unlimited_rate_starts_full none (sample_bucket_element 1 0) ⟨0, 10⟩ 1 (by rfl) (by rfl)
      (by decide) (by decide)).2.2.1 (by decide)⟩

/-- Claim C7 at `max_kbps = 800` with `max-bucket-size` set through the
property to 100 (so `bucket_size` is 100000) on an element whose `prev_time` is
0, and bursts at one clock reading.  At the reading 5368709118750 ns the elapsed
time is worth `2^32 - 1` tokens, the `gint` that holds the count keeps -1, the
bucket drops to 99999 and a buffer of 100000 bits is rejected, where the claim
admits it.  At the reading 5368646620000 ns the count is kept as -50000: of two
buffers of 60000 and 40000 bits the first is rejected and the second admitted,
where the claim admits both. -/
theorem burst_after_long_idle :
    sample_reset_element.priv.max_kbps = 800 ∧
    sample_reset_element.priv.max_bucket_size = 100 ∧
    sample_reset_element.priv.bucket_size = 100000 ∧
    sample_reset_element.priv.prev_time = 0 ∧
    (5368709118750 - 0) * (800 * 1000) / 1000000000 = 4294967295 ∧
    (gst_net_sim_get_tokens (some 5368709118750) sample_reset_element).1 = -1 ∧
    (token_bucket_burst (some 5368709118750) sample_reset_element [⟨1, 12500⟩]).1 =
      [false] ∧
    spec_burst 100000 ([⟨1, 12500⟩].map get_buffer_size_in_bits) = [true] ∧
    (gst_net_sim_get_tokens (some 5368646620000) sample_reset_element).1 = -50000 ∧
    (token_bucket_burst (some 5368646620000) sample_reset_element
      [⟨1, 7500⟩, ⟨2, 5000⟩]).1 = [false, true] ∧
    spec_burst 100000 ([⟨1, 7500⟩, ⟨2, 5000⟩].map get_buffer_size_in_bits) =
      [true, true] := by
  decide

/-- Claim C3 at `max_kbps = 4294968`, `prev_time = 0` and clock reading
1000000 ns: the claim gives `floor (1000000 * 4294968000 / 10^9) = 4294968`
tokens (below `2^31`) and `prev_time = 1000000`, but the 32-bit product
`max_kbps * 1000` wraps to 704, so `gst_net_sim_get_tokens` returns 0 tokens and
leaves `prev_time` at 0. -/
theorem rate_product_wraps :
    sample_fast_element.priv.max_kbps = 4294968 ∧
    sample_fast_element.priv.prev_time = 0 ∧
    (1000000 - 0) * (4294968 * 1000) / 1000000000 = 4294968 ∧
    wrap32 (sample_fast_element.priv.max_kbps * 1000) = 704 ∧
    (gst_net_sim_get_tokens (some 1000000) sample_fast_element).1 = 0 ∧
    (gst_net_sim_get_tokens (some 1000000) sample_fast_element).2.priv.prev_time = 0 := by
  decide

/-- Claim C11 as stated fails: with `duplicate_probability = 1` and
`delay_probability = 0` a one byte buffer is duplicated, both copies are pushed
synchronously, and `gst_net_sim_chain` returns the `GST_FLOW_ERROR` that the
sink gives for the second push, not `GST_FLOW_OK`. -/
theorem duplicate_returns_second_status :
    (gst_net_sim_chain sample_libm sample_failing_sink none sample_dup_element
      ⟨0, 1⟩).2.pushed = [⟨0, 1⟩, ⟨0, 1⟩] ∧
    (gst_net_sim_chain sample_libm sample_failing_sink none sample_dup_element
      ⟨0, 1⟩).1 = .GST_FLOW_ERROR ∧
    (gst_net_sim_chain sample_libm sample_failing_sink none sample_dup_element
      ⟨0, 1⟩).1 ≠ .GST_FLOW_OK := by
  have h := chain_duplicate_sync sample_libm sample_failing_sink none sample_dup_element
    ⟨0, 1⟩ (by rfl) (by rfl)
    (fun h => lt_irrefl (0 : ℚ) h.1) (by rfl) (by rfl)
  refine ⟨h.2.1, h.1, ?_⟩
  rw [h.1]
  decide

/-- Claim C11, amended: with `d` the outcome of the decision order,
`gst_net_sim_chain` returns `GST_FLOW_OK` for a rejected or dropped buffer; for a
buffer forwarded once it returns `GST_FLOW_OK` when the buffer is scheduled and
the sink's status when it is pushed synchronously; for a duplicated buffer it
returns the result of the second delay-and-forward step, that is `GST_FLOW_OK`
when the second copy is scheduled and the sink's status for the second copy when
that copy is pushed synchronously (the result of the first step is dropped). -/
theorem chain_return_status (m : Libm) (sink : Nat → GstFlowReturn) (now : Option Nat)
    (s : GstNetSim) (buf : GstBuffer) :
    let tb := gst_net_sim_token_bucket now s buf
    let d := spec_decision tb.1 tb.2.priv.drop_packets tb.2.priv.drop_probability
      tb.2.priv.duplicate_probability (g_rand_peek tb.2.priv.rand_seed)
    let r := gst_net_sim_chain m sink now s buf
    let mid := (gst_net_sim_delay_buffer m sink
      { skip_draws d.2 tb.2 with log := .duplicating :: tb.2.log } buf).2
    (d.1 = .rejected ∨ d.1 = .dropped → r.1 = .GST_FLOW_OK) ∧
    (d.1 = .forwarded_once →
      (r.2.pushed = s.pushed ∧ r.2.timers.length = s.timers.length + 1 ∧
        r.1 = .GST_FLOW_OK) ∨
      (r.2.pushed = buf :: s.pushed ∧ r.2.timers = s.timers ∧
        r.1 = sink s.pushed.length)) ∧
    (d.1 = .forwarded_twice →
      r = gst_net_sim_delay_buffer m sink mid buf ∧
      ((r.2.pushed = mid.pushed ∧ r.2.timers.length = mid.timers.length + 1 ∧
          r.1 = .GST_FLOW_OK) ∨
        (r.2.pushed = buf :: mid.pushed ∧ r.2.timers = mid.timers ∧
          r.1 = sink mid.pushed.length))) := by
  intro tb d r mid
  obtain ⟨h1, h2, h3, h4⟩ := chain_decision_aux m sink now s buf tb.1 tb.2 rfl d rfl r rfl
  obtain ⟨b, pt, cr, lg, hfr⟩ := token_bucket_frame now s buf
  have e6 : tb.2.pushed = s.pushed := by
    show (gst_net_sim_token_bucket now s buf).2.pushed = _
    rw [hfr]
  have e7 : tb.2.timers = s.timers := by
    show (gst_net_sim_token_bucket now s buf).2.timers = _
    rw [hfr]
  refine ⟨?_, ?_, ?_⟩
  · rintro (hd | hd)
    · rw [(h1 hd).1]
    · exact (h2 hd).1
  · intro hd
    rw [(h4 hd).1, ← e6, ← e7]
    exact delay_buffer_outcome m sink (skip_draws d.2 tb.2) buf
  · intro hd
    refine ⟨(h3 hd).1, ?_⟩
    rw [(h3 hd).1]
    exact delay_buffer_outcome m sink mid buf

/-- Claim C12: for `drop_probability = 1.0` every admitted buffer is dropped:
`gst_net_sim_chain` returns `GST_FLOW_OK` with nothing pushed and nothing
scheduled, whatever the random source yields.  For `drop_probability = 0.0` the
probabilistic drop stage drops nothing and draws nothing: while the countdown is
running the buffer is dropped by the countdown with the random source untouched;
otherwise the buffer is forwarded, and the next output of the random source is
still unread when the duplication stage (or, with `duplicate_probability` not
positive, the delay-and-forward step) starts. -/
theorem drop_probability_extremes (m : Libm) (sink : Nat → GstFlowReturn)
    (now : Option Nat) (s : GstNetSim) (buf : GstBuffer)
    (hadm : (gst_net_sim_token_bucket now s buf).1 = true) :
    (s.priv.drop_probability = 1 →
      (gst_net_sim_chain m sink now s buf).1 = .GST_FLOW_OK ∧
      (gst_net_sim_chain m sink now s buf).2.pushed = s.pushed ∧
      (gst_net_sim_chain m sink now s buf).2.timers = s.timers) ∧
    (s.priv.drop_probability = 0 → 0 < s.priv.drop_packets →
      (gst_net_sim_chain m sink now s buf).2.priv.rand_seed = s.priv.rand_seed ∧
      (gst_net_sim_chain m sink now s buf).2.priv.drop_packets =
        s.priv.drop_packets - 1) ∧
    (s.priv.drop_probability = 0 → s.priv.drop_packets = 0 →
      forwards s < forwards (gst_net_sim_chain m sink now s buf).2 ∧
      (¬ 0 < s.priv.duplicate_probability →
        gst_net_sim_chain m sink now s buf =
          gst_net_sim_delay_buffer m sink (gst_net_sim_token_bucket now s buf).2 buf) ∧
      (0 < s.priv.duplicate_probability →
        g_rand_peek s.priv.rand_seed 0 < s.priv.duplicate_probability →
        gst_net_sim_chain m sink now s buf =
          gst_net_sim_delay_buffer m sink
            (gst_net_sim_delay_buffer m sink
              { skip_draws 1 (gst_net_sim_token_bucket now s buf).2 with
                log := .duplicating :: (gst_net_sim_token_bucket now s buf).2.log }
              buf).2 buf) ∧
      (0 < s.priv.duplicate_probability →
        ¬ g_rand_peek s.priv.rand_seed 0 < s.priv.duplicate_probability →
        gst_net_sim_chain m sink now s buf =
          gst_net_sim_delay_buffer m sink
            (skip_draws 1 (gst_net_sim_token_bucket now s buf).2) buf)) := by
  obtain ⟨s1, htb, e1, e2, e3, e4, e5, e6, e7⟩ := token_bucket_admitted now s buf hadm
  obtain ⟨-, h2, h3, h4⟩ := chain_decision_aux m sink now s buf true s1 htb _ rfl _ rfl
  unfold spec_decision at h2 h3 h4
  rw [e1, e2, e3, e5] at h2 h3 h4
  rw [htb]
  simp only [Bool.true_eq_false, if_false] at h2 h3 h4
  have hlt : ∀ k, g_rand_peek s.priv.rand_seed k < 1 := fun k => (g_rand_peek_range _ k).2
  refine ⟨fun hp => ?_, fun hp hd => ?_, fun hp hd => ?_⟩
  · by_cases hd : 0 < s.priv.drop_packets
    · simp only [hd, if_true] at h2
      obtain ⟨a, b, c, -⟩ := h2 trivial
      exact ⟨a, b, c⟩
    · simp only [hd, if_false, hp, one_pos, hlt, and_self, if_true] at h2
      obtain ⟨a, b, c, -⟩ := h2 trivial
      exact ⟨a, b, c⟩
  · have hc := chain_of_countdown m sink now s buf hadm (by rw [htb]; simp only; omega)
    rw [htb] at hc
    rw [hc]
    exact ⟨e5, by simp only; rw [e1]⟩
  · have hd' : ¬ 0 < s.priv.drop_packets := by omega
    simp only [hd', if_false, hp, lt_irrefl, false_and, zero_add] at h3 h4
    by_cases hq : 0 < s.priv.duplicate_probability
    · simp only [hq, if_true] at h3 h4
      by_cases hv : g_rand_peek s.priv.rand_seed 0 < s.priv.duplicate_probability
      · simp only [hv, if_true] at h3
        obtain ⟨a, b⟩ := h3 trivial
        exact ⟨by omega, fun hn => absurd hq hn, fun _ _ => a, fun _ hn => absurd hv hn⟩
      · simp only [hv, if_false] at h4
        obtain ⟨a, b⟩ := h4 trivial
        exact ⟨by omega, fun hn => absurd hq hn, fun _ hn => absurd hn hv, fun _ _ => a⟩
    · simp only [hq, if_false] at h4
      obtain ⟨a, b⟩ := h4 trivial
      exact ⟨by omega, fun _ => a, fun hn => absurd hn hq, fun hn => absurd hn hq⟩

/-- Instance of claim C12: a freshly constructed element (unlimited bucket,
`drop_probability = 0`, `drop_packets = 0`) forwards a one byte buffer. -/
theorem drop_probability_extremes_witness :
    (gst_net_sim_token_bucket none sample_element ⟨0, 1⟩).1 = true ∧
    forwards sample_element <
      forwards (gst_net_sim_chain sample_libm sample_sink none sample_element ⟨0, 1⟩).2 :=
  ⟨by rfl,
    ((drop_probability_extremes sample_libm sample_sink none sample_element ⟨0, 1⟩
      (by rfl)).2.2 (by rfl) (by rfl)).1⟩

/-- Claim C13: for `duplicate_probability = 1.0` and `delay_probability = 0.0`,
an admitted buffer that is not dropped (`drop_packets = 0` and the probabilistic
drop declined) is pushed downstream exactly twice, both times synchronously
inside `gst_net_sim_chain`, and no timer is scheduled, whatever the random
source yields. -/
theorem duplicate_pushes_twice (m : Libm) (sink : Nat → GstFlowReturn) (now : Option Nat)
    (s : GstNetSim) (buf : GstBuffer)
    (hadm : (gst_net_sim_token_bucket now s buf).1 = true)
    (hdp : s.priv.drop_packets = 0)
    (hdecl : ¬ (0 < s.priv.drop_probability ∧
      g_rand_peek s.priv.rand_seed 0 < s.priv.drop_probability))
    (hdup : s.priv.duplicate_probability = 1) (hdel : s.priv.delay_probability = 0) :
    (gst_net_sim_chain m sink now s buf).2.pushed = buf :: buf :: s.pushed ∧
    (gst_net_sim_chain m sink now s buf).2.timers = s.timers :=
  (chain_duplicate_sync m sink now s buf hadm hdp hdecl hdup hdel).2

/-- Instance of claim C13: a fresh element with `duplicate_probability = 1`
pushes a one byte buffer twice. -/
theorem duplicate_pushes_twice_witness :
    sample_dup_element.priv.duplicate_probability = 1 ∧
    (gst_net_sim_chain sample_libm sample_sink none sample_dup_element
      ⟨0, 1⟩).2.pushed = [⟨0, 1⟩, ⟨0, 1⟩] :=
  ⟨by rfl,
    (duplicate_pushes_twice sample_libm sample_sink none sample_dup_element ⟨0, 1⟩
      (by rfl) (by rfl) (fun h => lt_irrefl (0 : ℚ) h.1) (by rfl) (by rfl)).1⟩

/-- Claim C18: when the scheduler loop is absent (`main_loop` is `NULL`),
`gst_net_sim_delay_buffer` pushes the buffer downstream synchronously exactly
once and returns the sink's status, for every `delay_probability` (1.0
included): nothing is scheduled, nothing is drawn, the buffer is not dropped. -/
theorem delay_buffer_without_loop (m : Libm) (sink : Nat → GstFlowReturn) (s : GstNetSim)
    (buf : GstBuffer) (h : s.priv.main_loop = none) :
    gst_net_sim_delay_buffer m sink s buf =
      (sink s.pushed.length, { s with pushed := buf :: s.pushed }) ∧
    (gst_net_sim_delay_buffer m sink s buf).2.pushed = buf :: s.pushed ∧
    (gst_net_sim_delay_buffer m sink s buf).2.timers = s.timers ∧
    (gst_net_sim_delay_buffer m sink s buf).2.priv.rand_seed = s.priv.rand_seed := by
  rw [delay_buffer_no_loop m sink s buf h]
  exact ⟨rfl, rfl, rfl, rfl⟩

/-- Instance of claim C18: a fresh element (no loop) with `delay-probability`
set to 1 pushes a one byte buffer at once. -/
theorem delay_buffer_without_loop_witness :
    (gst_net_sim_set_property sample_element (.PROP_DELAY_PROBABILITY 1)).priv.main_loop =
      none ∧
    (gst_net_sim_delay_buffer sample_libm sample_sink
      (gst_net_sim_set_property sample_element (.PROP_DELAY_PROBABILITY 1))
      ⟨0, 1⟩).2.pushed = [⟨0, 1⟩] :=
  ⟨by rfl,
    (delay_buffer_without_loop sample_libm sample_sink
      (gst_net_sim_set_property sample_element (.PROP_DELAY_PROBABILITY 1)) ⟨0, 1⟩
      (by rfl)).2.1⟩

/-- Claim C14: with the scheduler loop present, `delay_probability = 1.0`, the
uniform distribution and `min_delay = max_delay = D >= 0`,
`gst_net_sim_delay_buffer` attaches a timer with delay exactly `D` ms, returns
`GST_FLOW_OK` and pushes nothing synchronously, whatever the random source
yields. -/
theorem uniform_fixed_delay (m : Libm) (sink : Nat → GstFlowReturn) (s : GstNetSim)
    (buf : GstBuffer) (D : Int) (hl : s.priv.main_loop.isSome = true)
    (hp : s.priv.delay_probability = 1)
    (hd : s.priv.delay_distribution = .DISTRIBUTION_UNIFORM)
    (hmin : s.priv.min_delay = D) (hmax : s.priv.max_delay = D) (h0 : 0 ≤ D) :
    (gst_net_sim_delay_buffer m sink s buf).1 = .GST_FLOW_OK ∧
    (gst_net_sim_delay_buffer m sink s buf).2.timers = (D, buf) :: s.timers ∧
    (gst_net_sim_delay_buffer m sink s buf).2.pushed = s.pushed := by
  have hpos : 0 < s.priv.delay_probability := by rw [hp]; exact one_pos
  have hu : g_rand_peek s.priv.rand_seed 0 < s.priv.delay_probability := by
    rw [hp]; exact (g_rand_peek_range _ 0).2
  rw [delay_buffer_hit m sink s buf hl hpos hu]
  have hs : (sample_delay m (skip_draws 1 s).priv).1 = D := by
    unfold sample_delay
    have e1 : (skip_draws 1 s).priv.delay_distribution = .DISTRIBUTION_UNIFORM := hd
    have e2 : (skip_draws 1 s).priv.min_delay = D := hmin
    have e3 : (skip_draws 1 s).priv.max_delay = D := hmax
    rw [e1, e2, e3]
    simp [get_random_value_uniform, g_rand_int_range]
  refine ⟨rfl, ?_, rfl⟩
  simp only [hs]
  rw [max_eq_right h0]

/-- Instance of claim C14: a running element with `min-delay = max-delay = 30`
schedules a one byte buffer after 30 ms. -/
theorem uniform_fixed_delay_witness :
    (sample_running_element 30 30).priv.main_loop.isSome = true ∧
    (gst_net_sim_delay_buffer sample_libm sample_sink (sample_running_element 30 30)
      ⟨0, 1⟩).2.timers = [(30, ⟨0, 1⟩)] :=
  ⟨by rfl,
    (uniform_fixed_delay sample_libm sample_sink (sample_running_element 30 30) ⟨0, 1⟩ 30
      (by rfl) (by rfl) (by rfl) (by rfl) (by rfl) (by decide)).2.1⟩

/-- Claim C16: for every `min_delay`, `max_delay`, distribution and output of
the random source, a timer that `gst_net_sim_delay_buffer` attaches has the
delay `max 0 sample`, where `sample` is the value the distribution switch
produced, so the delay is never negative. -/
theorem scheduled_delay_nonneg (m : Libm) (sink : Nat → GstFlowReturn) (s : GstNetSim)
    (buf : GstBuffer) :
    (gst_net_sim_delay_buffer m sink s buf).2.timers = s.timers ∨
    ((gst_net_sim_delay_buffer m sink s buf).2.timers =
        (max 0 (sample_delay m (skip_draws 1 s).priv).1, buf) :: s.timers ∧
      0 ≤ max 0 (sample_delay m (skip_draws 1 s).priv).1) := by
  rcases delay_buffer_timers m sink s buf with h | h
  · exact Or.inl h
  · exact Or.inr ⟨h, le_max_left _ _⟩

/-- Claim C17: under the uniform distribution with `0 <= min_delay < max_delay`,
a timer that `gst_net_sim_delay_buffer` attaches has a delay `d` with
`min_delay <= d < max_delay`. -/
theorem uniform_delay_range (m : Libm) (sink : Nat → GstFlowReturn) (s : GstNetSim)
    (buf : GstBuffer) (hd : s.priv.delay_distribution = .DISTRIBUTION_UNIFORM)
    (h0 : 0 ≤ s.priv.min_delay) (hlt : s.priv.min_delay < s.priv.max_delay) :
    (gst_net_sim_delay_buffer m sink s buf).2.timers = s.timers ∨
    ∃ d, (gst_net_sim_delay_buffer m sink s buf).2.timers = (d, buf) :: s.timers ∧
      s.priv.min_delay ≤ d ∧ d < s.priv.max_delay := by
  rcases delay_buffer_timers m sink s buf with h | h
  · exact Or.inl h
  · refine Or.inr ⟨_, h, ?_⟩
    have hs : (sample_delay m (skip_draws 1 s).priv).1 =
        (g_rand_int_range (skip_draws 1 s).priv.rand_seed s.priv.min_delay
          s.priv.max_delay).1 := by
      unfold sample_delay
      have e1 : (skip_draws 1 s).priv.delay_distribution = .DISTRIBUTION_UNIFORM := hd
      rw [e1]
      rfl
    obtain ⟨b0, b1⟩ := g_rand_int_range_bounds (skip_draws 1 s).priv.rand_seed
      s.priv.min_delay s.priv.max_delay hlt
    rw [hs]
    constructor
    · rw [max_eq_right (by omega)]; exact b0
    · rw [max_eq_right (by omega)]; exact b1

/-- Instance of claim C17: a running element with the default bounds 200 and
400 schedules a one byte buffer with a delay in `[200, 400)`. -/
theorem uniform_delay_range_witness :
    (sample_running_element 200 400).priv.min_delay <
      (sample_running_element 200 400).priv.max_delay ∧
    ((gst_net_sim_delay_buffer sample_libm sample_sink (sample_running_element 200 400)
        ⟨0, 1⟩).2.timers = (sample_running_element 200 400).timers ∨
      ∃ d, (gst_net_sim_delay_buffer sample_libm sample_sink
          (sample_running_element 200 400) ⟨0, 1⟩).2.timers =
          (d, ⟨0, 1⟩) :: (sample_running_element 200 400).timers ∧
        (sample_running_element 200 400).priv.min_delay ≤ d ∧
        d < (sample_running_element 200 400).priv.max_delay) :=
  ⟨by decide,
    uniform_delay_range sample_libm sample_sink (sample_running_element 200 400) ⟨0, 1⟩
      (by rfl) (by decide) (by decide)⟩

/-- Claim C15: starting from `generate = FALSE`, after any even number `2 * k`
of calls of `get_random_value_normal` the next (odd-numbered) call draws a fresh
pair `(u1, u2)` with `u1 > DBL_EPSILON` from the random source (at least two
values), stores `z0` and `z1` computed from it and returns the value derived from
`z0`; the following (even-numbered) call returns the value derived from the `z1`
of that same pair, draws nothing and leaves `z0` and `z1` unchanged. -/
theorem normal_pair_shares_draw (m : Libm) (low high : Int) (k : Nat) (r : GRand)
    (st : NormalDistributionState) (hg : st.generate = false) :
    let x := normal_calls m low high (2 * k) (r, st)
    let c1 := get_random_value_normal m x.1 low high x.2
    let c2 := get_random_value_normal m c1.2.1 low high c1.2.2
    let u := draw_u1_u2 x.1.tape.length x.1
    let mu : ℚ := (wrap32 (high + low) : ℚ) / 2
    let sigma : ℚ := (wrap32 (high - low) : ℚ) / (2 * (196 / 100))
    DBL_EPSILON < u.1 ∧
    c1.2.1 = u.2.2 ∧
    x.1.drawn + 2 ≤ c1.2.1.drawn ∧
    c1.2.2.z0 = m.sqrt (-2 * m.log u.1) * m.cos (2 * m.G_PI * u.2.1) ∧
    c1.2.2.z1 = m.sqrt (-2 * m.log u.1) * m.sin (2 * m.G_PI * u.2.1) ∧
    c1.1 = wrap32 (c_round (c1.2.2.z0 * sigma + mu)) ∧
    c2.1 = wrap32 (c_round (c1.2.2.z1 * sigma + mu)) ∧
    c2.2.1 = c1.2.1 ∧
    c2.2.2.z0 = c1.2.2.z0 ∧
    c2.2.2.z1 = c1.2.2.z1 := by
  intro x c1 c2 u mu sigma
  have hx : x.2.generate = false := normal_calls_even_count m low high k r st hg
  have h1 : c1 = _ := normal_call_odd m x.1 low high x.2 hx
  have hg1 : c1.2.2.generate = true := by rw [h1]
  have h2 : c2 = _ := normal_call_even m c1.2.1 low high c1.2.2 hg1
  refine ⟨draw_u1_u2_accepts _ _ (by omega), ?_, ?_, ?_, ?_, ?_, ?_, ?_, ?_, ?_⟩
  · rw [h1]
  · rw [h1]; exact draw_u1_u2_drawn _ _
  · rw [h1]
  · rw [h1]
  · rw [h1]
  · rw [h2]
  · rw [h2]
  · rw [h2]
  · rw [h2]

/-- Instance of claim C15: from the initial state the second call reuses the
random source exactly as the first call left it. -/
theorem normal_pair_shares_draw_witness :
    (⟨false, 0, 0⟩ : NormalDistributionState).generate = false ∧
    (get_random_value_normal sample_libm
      (get_random_value_normal sample_libm ⟨[], 0⟩ 200 400 ⟨false, 0, 0⟩).2.1 200 400
      (get_random_value_normal sample_libm ⟨[], 0⟩ 200 400 ⟨false, 0, 0⟩).2.2).2.1 =
    (get_random_value_normal sample_libm ⟨[], 0⟩ 200 400 ⟨false, 0, 0⟩).2.1 :=
  ⟨rfl,
    (normal_pair_shares_draw sample_libm 200 400 0 ⟨[], 0⟩ ⟨false, 0, 0⟩
      rfl).2.2.2.2.2.2.2.1⟩

/-- Claim C19 at `max_kbps = 0` (a finite rate inside the property range): with
`prev_time` invalid and the clock reading 5, `gst_net_sim_get_tokens` returns 0
tokens but leaves `prev_time = 4`, not the clock reading: the time cost of the
tokens is computed by `gst_util_uint64_scale_int` with the denominator
`max_kbps * 1000 = 0`, which yields `G_MAXUINT64`, that is -1 as a
`GstClockTimeDiff`. -/
theorem zero_rate_first_call :
    sample_zero_rate_element.priv.max_kbps = 0 ∧
    sample_zero_rate_element.priv.prev_time = GST_CLOCK_TIME_NONE ∧
    (gst_net_sim_get_tokens (some 5) sample_zero_rate_element).1 = 0 ∧
    gst_util_uint64_scale_int GST_SECOND 0 (wrap32 (0 * 1000)) = G_MAXUINT64 ∧
    (gst_net_sim_get_tokens (some 5) sample_zero_rate_element).2.priv.prev_time = 4 := by
  decide

/-- Claim C20 on two inputs.  At `max_kbps = 800`, `prev_time = 1` and clock
reading `1 + 1250 * 2^31` the token count `2^31` becomes `-2^31` in the `gint`,
the time cost computed from it is `G_MAXUINT64`, and `prev_time` goes from 1
down to 0.  At `max_kbps = 2147484` (the product with 1000 wraps to a negative
`gint`), `prev_time = 9` and the earlier clock reading 5,
`gst_net_sim_get_tokens` returns -1 tokens and moves `prev_time` to 8. -/
theorem prev_time_decreases :
    sample_idle_element.priv.max_kbps = 800 ∧
    sample_idle_element.priv.prev_time = 1 ∧
    (gst_net_sim_get_tokens (some 2684354560001) sample_idle_element).1 = -2147483648 ∧
    (gst_net_sim_get_tokens (some 2684354560001) sample_idle_element).2.priv.prev_time = 0 ∧
    sample_overflow_element.priv.max_kbps = 2147484 ∧
    sample_overflow_element.priv.prev_time = 9 ∧
    (gst_net_sim_get_tokens (some 5) sample_overflow_element).1 = -1 ∧
    (gst_net_sim_get_tokens (some 5) sample_overflow_element).2.priv.prev_time = 8 := by
  decide

/-- Claim C22: with the default configuration (delay-, drop- and
duplicate-probability 0, `drop_packets` 0, `max_kbps` -1, `max_bucket_size` -1)
`gst_net_sim_chain` pushes the buffer downstream exactly once, synchronously,
returns the sink's status, and leaves the element otherwise unchanged: the
private struct (random source, token state, countdown) and the timers are as
before. -/
theorem default_is_pass_through (m : Libm) (sink : Nat → GstFlowReturn)
    (now : Option Nat) (s : GstNetSim) (buf : GstBuffer)
    (hdel : s.priv.delay_probability = 0) (hdrop : s.priv.drop_probability = 0)
    (hdup : s.priv.duplicate_probability = 0) (hdp : s.priv.drop_packets = 0)
    (hk : s.priv.max_kbps = -1) (hB : s.priv.max_bucket_size = -1) :
    gst_net_sim_chain m sink now s buf =
      (sink s.pushed.length, { s with pushed := buf :: s.pushed }) ∧
    (gst_net_sim_chain m sink now s buf).1 = sink s.pushed.length ∧
    (gst_net_sim_chain m sink now s buf).2.pushed = buf :: s.pushed ∧
    (gst_net_sim_chain m sink now s buf).2.timers = s.timers ∧
    (gst_net_sim_chain m sink now s buf).2.priv = s.priv ∧
    (gst_net_sim_chain m sink now s buf).2.clock_reads = s.clock_reads := by
  have _hk := hk
  rw [chain_pass_through m sink now s buf hB hdp hdrop hdup hdel]
  exact ⟨rfl, rfl, rfl, rfl, rfl, rfl⟩

/-- Instance of claim C22: a freshly constructed element passes a one byte
buffer through. -/
theorem default_is_pass_through_witness :
    sample_element.priv.max_bucket_size = -1 ∧
    (gst_net_sim_chain sample_libm sample_sink (some 3) sample_element ⟨0, 1⟩).2.pushed =
      [⟨0, 1⟩] :=
  ⟨by rfl,
    (default_is_pass_through sample_libm sample_sink (some 3) sample_element ⟨0, 1⟩
      (by rfl) (by rfl) (by rfl) (by rfl) (by rfl) (by rfl)).2.2.1⟩

/-- Claim C27 as stated fails: an element with `delay_probability = 1` whose
scheduler loop is absent draws nothing in `gst_net_sim_delay_buffer` (the random
source is as before and the buffer is pushed), while the same configuration with
the loop present draws at least one value. -/
theorem delay_draw_depends_on_loop :
    0 < sample_stopped_element.priv.delay_probability ∧
    sample_stopped_element.priv.main_loop = none ∧
    (gst_net_sim_delay_buffer sample_libm sample_sink sample_stopped_element
      ⟨0, 1⟩).2.priv.rand_seed = sample_stopped_element.priv.rand_seed ∧
    (sample_running_element 200 400).priv.delay_probability =
      sample_stopped_element.priv.delay_probability ∧
    (sample_running_element 200 400).priv.rand_seed.drawn <
      (gst_net_sim_delay_buffer sample_libm sample_sink (sample_running_element 200 400)
        ⟨0, 1⟩).2.priv.rand_seed.drawn := by
  have hp : (0 : ℚ) < sample_stopped_element.priv.delay_probability := by
    show (0 : ℚ) < 1
    exact one_pos
  have hp' : (0 : ℚ) < (sample_running_element 200 400).priv.delay_probability := by
    show (0 : ℚ) < 1
    exact one_pos
  have hu : g_rand_peek (sample_running_element 200 400).priv.rand_seed 0 <
      (sample_running_element 200 400).priv.delay_probability := by
    show _ < (1 : ℚ)
    exact (g_rand_peek_range _ 0).2
  refine ⟨hp, rfl, ?_, rfl, ?_⟩
  · rw [delay_buffer_no_loop sample_libm sample_sink sample_stopped_element ⟨0, 1⟩ rfl]
  · rw [delay_buffer_hit sample_libm sample_sink (sample_running_element 200 400) ⟨0, 1⟩
      rfl hp' hu]
    have h1 := sample_delay_drawn sample_libm (skip_draws 1 (sample_running_element 200 400)).priv
    have h2 : (skip_draws 1 (sample_running_element 200 400)).priv.rand_seed.drawn =
        (sample_running_element 200 400).priv.rand_seed.drawn + 1 := g_rand_skip_drawn 1 _
    show _ < (sample_delay sample_libm
      (skip_draws 1 (sample_running_element 200 400)).priv).2.1.drawn
    omega

/-- Claim C27, amended: `gst_net_sim_delay_buffer` draws for the delay decision
only when the scheduler loop is present and `delay_probability > 0`: then it
draws one uniform double, and when that is below `delay_probability` the random
source continues with what the distribution switch draws for the delay sample.
With the loop absent, or with `delay_probability` not positive, it draws
nothing. -/
theorem delay_draws (m : Libm) (sink : Nat → GstFlowReturn) (s : GstNetSim)
    (buf : GstBuffer) :
    (s.priv.main_loop = none →
      (gst_net_sim_delay_buffer m sink s buf).2.priv.rand_seed = s.priv.rand_seed) ∧
    (¬ 0 < s.priv.delay_probability →
      (gst_net_sim_delay_buffer m sink s buf).2.priv.rand_seed = s.priv.rand_seed) ∧
    (s.priv.main_loop.isSome = true → 0 < s.priv.delay_probability →
      ¬ g_rand_peek s.priv.rand_seed 0 < s.priv.delay_probability →
      (gst_net_sim_delay_buffer m sink s buf).2.priv.rand_seed =
        g_rand_skip 1 s.priv.rand_seed) ∧
    (s.priv.main_loop.isSome = true → 0 < s.priv.delay_probability →
      g_rand_peek s.priv.rand_seed 0 < s.priv.delay_probability →
      (gst_net_sim_delay_buffer m sink s buf).2.priv.rand_seed =
        (sample_delay m (skip_draws 1 s).priv).2.1) :=
  delay_buffer_rand m sink s buf

/-- Claim C21 at `max_kbps = 3` (3000 bits per second) and the clock readings
0, 333334, 666667, 1000000, 1333333 ns, starting with no valid `prev_time`: the
four later calls return one token each, four in total, while
`floor (1333333 * 3000 / 10^9) = 3`.  Each token advances `prev_time` by
`floor (10^9 / 3000) = 333333` ns, less than its cost of 333333.33 ns. -/
theorem tokens_exceed_rate :
    sample_slow_element.priv.max_kbps = 3 ∧
    sample_slow_element.priv.prev_time = GST_CLOCK_TIME_NONE ∧
    (get_tokens_run sample_slow_element
      [some 0, some 333334, some 666667, some 1000000, some 1333333]).1 = 4 ∧
    (1333333 - 0) * (3 * 1000) / 1000000000 = 3 ∧
    (get_tokens_run sample_slow_element
      [some 0, some 333334, some 666667, some 1000000, some 1333333]).2.priv.prev_time =
      1333332 := by
  decide

/-- Claim C28 at `max_kbps = 800`, capacity 100000 bits, an empty bucket,
`prev_time = 0` and the clock reading `1250 * 2^32` ns: the elapsed time is worth
`2^32` tokens, far more than the capacity, but the `gint` that holds the count
keeps 0, the bucket stays empty and a one byte buffer is rejected. -/
theorem idle_bucket_not_refilled :
    sample_drained_element.priv.max_kbps = 800 ∧
    sample_drained_element.priv.max_bucket_size = 100 ∧
    sample_drained_element.priv.bucket_size = 0 ∧
    sample_drained_element.priv.prev_time = 0 ∧
    (5368709120000 - 0) * (800 * 1000) / 1000000000 = 4294967296 ∧
    (gst_net_sim_get_tokens (some 5368709120000) sample_drained_element).1 = 0 ∧
    (gst_net_sim_token_bucket (some 5368709120000) sample_drained_element ⟨1, 1⟩).1 =
      false ∧
    (gst_net_sim_token_bucket (some 5368709120000) sample_drained_element
      ⟨1, 1⟩).2.priv.bucket_size = 0 := by
  decide

/-- Claim C29 at `M = 4294968` (inside the property range `0..G_MAXINT`):
`gst_net_sim_set_property` leaves `bucket_size = 704`, not `4294968000`, because
the `gint` product `max_bucket_size * 1000` wraps, and `gst_net_sim_token_bucket`
uses 704 bits as the capacity: a 100 byte buffer is rejected.  At `M = 2147484`
the product wraps to a negative `gint` and `bucket_size` becomes
`2^64 - 2147483296`. -/
theorem bucket_product_wraps :
    (gst_net_sim_set_property sample_element
      (.PROP_MAX_BUCKET_SIZE 4294968)).priv.bucket_size = 704 ∧
    (gst_net_sim_token_bucket none
      (gst_net_sim_set_property sample_element (.PROP_MAX_BUCKET_SIZE 4294968))
      ⟨0, 100⟩).1 = false ∧
    (gst_net_sim_set_property sample_element
      (.PROP_MAX_BUCKET_SIZE 2147484)).priv.bucket_size = 18446744071562068320 := by
  decide

/-- Claim C30: for a finite capacity and a run of `gst_net_sim_token_bucket`
calls in which every `gst_net_sim_get_tokens` call returns a non-negative
amount, the bits of the admitted buffers plus the final `bucket_size` are at most
the initial `bucket_size` plus the tokens returned; and whenever a call (in any
state with a finite capacity) admits a buffer, its bit length is at most the
bucket content being charged, so the subtraction is exact and does not
underflow. -/
theorem token_conservation (s : GstNetSim) (arrivals : List Arrival)
    (hB : s.priv.max_bucket_size ≠ -1) (hnn : tokens_nonneg s arrivals) :
    (((token_bucket_run s arrivals).1 : Nat) : Int) +
        (token_bucket_run s arrivals).2.2.priv.bucket_size ≤
      s.priv.bucket_size + (token_bucket_run s arrivals).2.1 ∧
    ∀ (now : Option Nat) (x : GstNetSim) (buf : GstBuffer),
      x.priv.max_bucket_size ≠ -1 → (gst_net_sim_token_bucket now x buf).1 = true →
      get_buffer_size_in_bits buf ≤
        add_and_clamp x.priv.bucket_size (gst_net_sim_get_tokens now x).1
          x.priv.max_bucket_size ∧
      (gst_net_sim_token_bucket now x buf).2.priv.bucket_size +
          get_buffer_size_in_bits buf =
        add_and_clamp x.priv.bucket_size (gst_net_sim_get_tokens now x).1
          x.priv.max_bucket_size :=
  ⟨token_bucket_run_conserves arrivals s hB hnn,
    fun now x buf hx hadm => token_bucket_charge_exact now x buf hx hadm⟩

/-- Instance of claim C30: a 1 Kb bucket holding 1000 bits admits a 10 byte
buffer; 80 bits admitted plus what is left is at most 1000 plus the tokens. -/
theorem token_conservation_witness :
    (sample_bucket_element 1 0).priv.max_bucket_size ≠ -1 ∧
    (((token_bucket_run (sample_bucket_element 1 0) [⟨⟨0, 10⟩, none⟩]).1 : Nat) : Int) +
        (token_bucket_run (sample_bucket_element 1 0)
          [⟨⟨0, 10⟩, none⟩]).2.2.priv.bucket_size ≤
      (sample_bucket_element 1 0).priv.bucket_size +
        (token_bucket_run (sample_bucket_element 1 0) [⟨⟨0, 10⟩, none⟩]).2.1 :=
  ⟨by decide,
    (token_conservation (sample_bucket_element 1 0) [⟨⟨0, 10⟩, none⟩] (by decide)
      ⟨by decide, trivial⟩).1⟩

/-- Claim C23: the freshly constructed element has no loop handle and is not
running, and from every state in which the loop handle is present exactly when
`running` is set, every sequence of `gst_net_sim_src_activatemode` calls whose
task starts succeed returns from each of its calls (every prefix of the sequence
runs to completion, one result per call) in a state where again the loop handle
is present exactly when `running` is set. -/
theorem scheduler_loop_iff_running (r : GRand) (priv : GstNetSimPrivate)
    (e : SchedulerCalls) (calls : List ActivateCall)
    (hinv : scheduler_consistent priv)
    (hs : ∀ c ∈ calls, c.active = true → c.start_task = true) :
    scheduler_consistent (gst_net_sim_init r).priv ∧
    ∀ k : Nat, ∃ rs priv1 e1,
      activatemode_run priv e (calls.take k) = .ok (rs, priv1, e1) ∧
      rs.length = (calls.take k).length ∧
      (priv1.main_loop ≠ none ↔ priv1.running = true) :=
  ⟨init_scheduler_consistent r, fun k =>
    activatemode_run_consistent (calls.take k) priv e hinv
      (fun c hc => hs c (List.mem_of_mem_take hc))⟩

/-- Instance of claim C23: activate, deactivate, deactivate, activate on a
freshly constructed element. -/
theorem scheduler_loop_iff_running_witness :
    scheduler_consistent sample_element.priv ∧
    (∀ c ∈ [sample_activate, sample_deactivate, sample_deactivate, sample_activate],
      c.active = true → c.start_task = true) ∧
    ∃ rs priv1 e1,
      activatemode_run sample_element.priv no_calls
        ([sample_activate, sample_deactivate, sample_deactivate, sample_activate].take 4) =
          .ok (rs, priv1, e1) ∧
      rs.length =
        ([sample_activate, sample_deactivate, sample_deactivate,
          sample_activate].take 4).length ∧
      (priv1.main_loop ≠ none ↔ priv1.running = true) :=
  ⟨init_scheduler_consistent _, by decide,
    (scheduler_loop_iff_running { tape := [], drawn := 0 } sample_element.priv no_calls
      [sample_activate, sample_deactivate, sample_deactivate, sample_activate]
      (init_scheduler_consistent _) (by decide)).2 4⟩

/-- Claim C24: a deactivation (`active = FALSE`) in a state without a loop
handle returns with the private state unchanged and no call made: no quit source
attached, no wait on the condition, no release of the loop handle; and after
any deactivation that returns, a second deactivation is such a call. -/
theorem deactivate_inactive_is_noop (c : ActivateCall) (priv : GstNetSimPrivate)
    (e : SchedulerCalls) (hc : c.active = false) :
    (priv.main_loop = none →
      gst_net_sim_src_activatemode c priv e = .ok (false, priv, e)) ∧
    ∀ (d : ActivateCall) (x : GstNetSimPrivate) (f : SchedulerCalls) (r : Bool)
      (x1 : GstNetSimPrivate) (f1 : SchedulerCalls),
      d.active = false → gst_net_sim_src_activatemode d x f = .ok (r, x1, f1) →
      gst_net_sim_src_activatemode c x1 f1 = .ok (false, x1, f1) := by
  refine ⟨fun hl => activatemode_inactive_deactivate c priv e hc hl, ?_⟩
  intro d x f r x1 f1 hd hret
  apply activatemode_inactive_deactivate c x1 f1 hc
  cases hm : x.main_loop with
  | none =>
    rw [activatemode_inactive_deactivate d x f hd hm] at hret
    simp only [Except.ok.injEq, Prod.mk.injEq] at hret
    rw [← hret.2.1]
    exact hm
  | some l =>
    cases hr : x.running with
    | false => simp [gst_net_sim_src_activatemode, hd, hm, hr] at hret
    | true =>
      rw [activatemode_running_deactivate d x f hd (by simp [hm]) hr] at hret
      simp only [Except.ok.injEq, Prod.mk.injEq] at hret
      rw [← hret.2.1]

/-- Instance of claim C24: deactivating a freshly constructed element. -/
theorem deactivate_inactive_is_noop_witness :
    sample_deactivate.active = false ∧
    (sample_element.priv.main_loop = none →
      gst_net_sim_src_activatemode sample_deactivate sample_element.priv no_calls =
        .ok (false, sample_element.priv, no_calls)) :=
  ⟨rfl, (deactivate_inactive_is_noop sample_deactivate sample_element.priv no_calls rfl).1⟩

/-- Counterexample to claim C25: with a task stop that succeeds, deactivating a
freshly constructed element returns FALSE, and in the sequence activate,
deactivate, deactivate the second deactivation returns FALSE. -/
theorem deactivate_inactive_returns_false :
    gst_net_sim_src_activatemode sample_deactivate sample_element.priv no_calls =
      .ok (false, sample_element.priv, no_calls) ∧
    ∃ priv e,
      activatemode_run sample_element.priv no_calls
        [sample_activate, sample_deactivate, sample_deactivate] =
          .ok ([true, true, false], priv, e) :=
  ⟨rfl, _, _, rfl⟩

/-- Claim C25, amended: a deactivation (`active = FALSE`) in a state whose loop
handle is present and whose task is running returns what `gst_pad_stop_task`
returns, so TRUE when that primitive succeeds; in a state without a loop handle
it returns FALSE and does nothing. -/
theorem deactivate_result (c : ActivateCall) (priv : GstNetSimPrivate)
    (e : SchedulerCalls) (hc : c.active = false) (hinv : scheduler_consistent priv) :
    (priv.main_loop ≠ none →
      ∃ priv1 e1, gst_net_sim_src_activatemode c priv e = .ok (c.stop_task, priv1, e1) ∧
        priv1.main_loop = none ∧ priv1.running = false ∧
        e1.task_stops = e.task_stops + 1) ∧
    (priv.main_loop = none →
      gst_net_sim_src_activatemode c priv e = .ok (false, priv, e)) :=
  ⟨fun hl => ⟨_, _, activatemode_running_deactivate c priv e hc hl (hinv.mp hl),
      rfl, rfl, rfl⟩,
    fun hl => activatemode_inactive_deactivate c priv e hc hl⟩

/-- Instance of claim C25, amended: deactivating a running element with a task
stop that succeeds returns TRUE. -/
theorem deactivate_result_witness :
    sample_deactivate.active = false ∧
    scheduler_consistent (sample_running_element 0 0).priv ∧
    ((sample_running_element 0 0).priv.main_loop ≠ none →
      ∃ priv1 e1,
        gst_net_sim_src_activatemode sample_deactivate (sample_running_element 0 0).priv
          no_calls = .ok (sample_deactivate.stop_task, priv1, e1) ∧
        priv1.main_loop = none ∧ priv1.running = false ∧
        e1.task_stops = no_calls.task_stops + 1) :=
  ⟨rfl, by simp [scheduler_consistent, sample_running_element],
    (deactivate_result sample_deactivate (sample_running_element 0 0).priv no_calls rfl
      (by simp [scheduler_consistent, sample_running_element])).1⟩

end NetSim
